import Mathlib

/-!
Verification of the Adaptive Gesture Recognition Engine
(`src/gesture-recognizer.js`).  JavaScript numbers are modelled as real
numbers; a JavaScript value that may be `NaN`/`±Infinity` is modelled as
`Option ℝ` with `none` standing for any non-finite value.
-/

namespace InSync

/-- A JavaScript number as stored in the calibration sample store: `none`
models a non-finite value (`NaN`, `±Infinity`). -/
abbrev JsVal := Option ℝ

/-- `Number.isFinite` on a stored value. -/
def jsIsFinite (v : JsVal) : Bool := v.isSome

/-- One 3-D landmark (source data model: x, y, z in camera-normalized space). -/
structure Point where
  x : ℝ
  y : ℝ
  z : ℝ

/-- Default point used for out-of-range landmark access. -/
def originPoint : Point := ⟨0, 0, 0⟩

/-- A hand observation: list of landmarks (21 when complete). -/
abbrev Landmarks := List Point

/-- `landmarks[i]` access. -/
def lmGet (lm : Landmarks) (i : ℕ) : Point := lm.getD i originPoint

/-- `vectorSub` from the source (the `|| 0` guards are vacuous in the typed model). -/
def vectorSub (a b : Point) : Point := ⟨a.x - b.x, a.y - b.y, a.z - b.z⟩

/-- `vectorDot` from the source. -/
def vectorDot (a b : Point) : ℝ := a.x * b.x + a.y * b.y + a.z * b.z

/-- `vectorCross` from the source. -/
def vectorCross (a b : Point) : Point :=
  ⟨a.y * b.z - a.z * b.y, a.z * b.x - a.x * b.z, a.x * b.y - a.y * b.x⟩

/-- `vectorLength` from the source. -/
noncomputable def vectorLength (v : Point) : ℝ :=
  Real.sqrt (v.x * v.x + v.y * v.y + v.z * v.z)

/-- `normalizeVector` from the source: zero-length vectors are mapped to the
zero vector instead of dividing by zero. -/
noncomputable def normalizeVector (v : Point) : Point :=
  if vectorLength v = 0 then ⟨0, 0, 0⟩
  else ⟨v.x / vectorLength v, v.y / vectorLength v, v.z / vectorLength v⟩

/-- `distanceBetweenPoints` from the source. -/
noncomputable def distanceBetweenPoints (a b : Point) : ℝ :=
  Real.sqrt ((a.x - b.x) ^ 2 + (a.y - b.y) ^ 2 + (a.z - b.z) ^ 2)

/-- `clampNumber` from the source.  The `Number.isFinite` early return has no
counterpart because `ℝ` contains no non-finite values. -/
noncomputable def clampNumber (value lo hi : ℝ) : ℝ :=
  if value < lo then lo else if value > hi then hi else value

/-- `clampNumber` with its default bounds (−5, 5). -/
noncomputable def clamp5 (value : ℝ) : ℝ := clampNumber value (-5) 5

theorem clampNumber_mem (value lo hi : ℝ) (h : lo ≤ hi) :
    lo ≤ clampNumber value lo hi ∧ clampNumber value lo hi ≤ hi := by
  unfold clampNumber
  split
  · exact ⟨le_refl _, h⟩
  · split
    · exact ⟨h, le_refl _⟩
    · constructor <;> linarith [not_lt.mp (by assumption : ¬ value < lo)]

/-- `Math.hypot` on two arguments. -/
noncomputable def hypot2 (dx dy : ℝ) : ℝ := Real.sqrt (dx ^ 2 + dy ^ 2)

/-- `Math.atan2 y x`, modelled as the argument of the complex number `x + y·i`
(range `(-π, π]`; `atan2 0 0 = 0` as in JavaScript). -/
noncomputable def atan2 (y x : ℝ) : ℝ := Complex.arg ⟨x, y⟩

/-- `isFingerExtended(landmarks, fingerIndex, handLabel)` from the source.
For the thumb (index 4) the test is handedness-aware on x with a displacement
fallback when handedness is unknown; for other fingers the tip must be above
(smaller y than) the PIP joint by a 0.02 margin. -/
noncomputable def isFingerExtended (lm : Landmarks) (fingerIndex : ℕ)
    (handLabel : Option String) : Bool :=
  if fingerIndex = 4 then
    let thumbTip := lmGet lm 4
    let thumbMCP := lmGet lm 2
    let thumbIP := lmGet lm 3
    match handLabel with
    | some s =>
        if String.startsWith s.toLower ("right") then
          decide (thumbTip.x < thumbMCP.x - 0.02)
        else if String.startsWith s.toLower ("left") then
          decide (thumbTip.x > thumbMCP.x + 0.02)
        else
          decide (|thumbTip.x - thumbIP.x| > 0.03 ∨ |thumbTip.y - thumbIP.y| > 0.03)
    | none =>
        decide (|thumbTip.x - thumbIP.x| > 0.03 ∨ |thumbTip.y - thumbIP.y| > 0.03)
  else
    let pipIdx : ℕ :=
      if fingerIndex = 8 then 6
      else if fingerIndex = 12 then 10
      else if fingerIndex = 16 then 14
      else if fingerIndex = 20 then 18
      else 0
    let tip := lmGet lm fingerIndex
    let pip := lmGet lm pipIdx
    decide (tip.y < pip.y - 0.02)

/-- `detectThumbUp` from the source. -/
noncomputable def detectThumbUp (lm : Landmarks) (handLabel : Option String) : ℝ :=
  let thumbExtended := isFingerExtended lm 4 handLabel
  let othersClosed :=
    !(isFingerExtended lm 8 handLabel) && !(isFingerExtended lm 12 handLabel) &&
    !(isFingerExtended lm 16 handLabel) && !(isFingerExtended lm 20 handLabel)
  if ¬thumbExtended ∨ ¬othersClosed then 0
  else
    let thumbTipY := (lmGet lm 4).y
    let avgFingersY :=
      ((lmGet lm 8).y + (lmGet lm 12).y + (lmGet lm 16).y + (lmGet lm 20).y) / 4
    if thumbTipY < avgFingersY - 0.03 then 0.95 else 0

/-- `detectThumbDown` from the source. -/
noncomputable def detectThumbDown (lm : Landmarks) (handLabel : Option String) : ℝ :=
  let thumbExtended := isFingerExtended lm 4 handLabel
  let othersClosed :=
    !(isFingerExtended lm 8 handLabel) && !(isFingerExtended lm 12 handLabel) &&
    !(isFingerExtended lm 16 handLabel) && !(isFingerExtended lm 20 handLabel)
  if ¬thumbExtended ∨ ¬othersClosed then 0
  else
    let thumbTipY := (lmGet lm 4).y
    let avgFingersY :=
      ((lmGet lm 8).y + (lmGet lm 12).y + (lmGet lm 16).y + (lmGet lm 20).y) / 4
    if thumbTipY > avgFingersY + 0.03 then 0.95 else 0

/-- `detectStop` from the source: open palm (≥3 non-thumb fingers extended,
thumb closed, fingertips spread). -/
noncomputable def detectStop (lm : Landmarks) (handLabel : Option String) : ℝ :=
  let extendedCount :=
    [8, 12, 16, 20].foldl
      (fun acc idx => acc + (if isFingerExtended lm idx handLabel then 1 else 0)) 0
  let thumbClosed := !(isFingerExtended lm 4 handLabel)
  let indexTip := lmGet lm 8
  let middleTip := lmGet lm 12
  let ringTip := lmGet lm 16
  let indexMiddleDist := hypot2 (indexTip.x - middleTip.x) (indexTip.y - middleTip.y)
  let middleRingDist := hypot2 (middleTip.x - ringTip.x) (middleTip.y - ringTip.y)
  if extendedCount ≥ 3 ∧ thumbClosed = true ∧ indexMiddleDist > 0.06 ∧
      middleRingDist > 0.05 then 0.9
  else 0

/-- `detectQuestion` from the source: index extended, the rest closed, index
significantly higher than the others. -/
noncomputable def detectQuestion (lm : Landmarks) (handLabel : Option String) : ℝ :=
  let indexExtended := isFingerExtended lm 8 handLabel
  let othersClosed :=
    !(isFingerExtended lm 12 handLabel) && !(isFingerExtended lm 16 handLabel) &&
    !(isFingerExtended lm 20 handLabel) && !(isFingerExtended lm 4 handLabel)
  if indexExtended && othersClosed then
    let indexY := (lmGet lm 8).y
    let avgOthersY :=
      ((lmGet lm 12).y + (lmGet lm 16).y + (lmGet lm 20).y + (lmGet lm 4).y) / 4
    if indexY < avgOthersY - 0.06 then 0.95 else 0
  else 0

/-- `detectWait` from the source. -/
noncomputable def detectWait (lm : Landmarks) (handLabel : Option String) : ℝ :=
  let indexExtended := isFingerExtended lm 8 handLabel
  let palmCenter := lmGet lm 9
  let wrist := lmGet lm 0
  if indexExtended = true ∧ wrist.y < palmCenter.y - 0.02 then 0.7 else 0

/-- `detectGo` from the source: pointing. -/
noncomputable def detectGo (lm : Landmarks) (handLabel : Option String) : ℝ :=
  if isFingerExtended lm 8 handLabel = true ∧ isFingerExtended lm 12 handLabel = false then
    let palm := lmGet lm 0
    let indexTip := lmGet lm 8
    if |indexTip.x - palm.x| > 0.08 then 0.8 else 0
  else 0

/-- `computePalmCenter` from the source. -/
noncomputable def computePalmCenter (lm : Landmarks) : Point :=
  let wrist := lmGet lm 0
  let indexMCP := lmGet lm 5
  let middleMCP := lmGet lm 9
  let ringMCP := lmGet lm 13
  ⟨(wrist.x + indexMCP.x + middleMCP.x + ringMCP.x) / 4,
   (wrist.y + indexMCP.y + middleMCP.y + ringMCP.y) / 4,
   (wrist.z + indexMCP.z + middleMCP.z + ringMCP.z) / 4⟩

/-- `computeHandScale` from the source: wrist→middle-MCP plus index-MCP→pinky-MCP,
floored at 1e-3. -/
noncomputable def computeHandScale (lm : Landmarks) : ℝ :=
  let base := distanceBetweenPoints (lmGet lm 0) (lmGet lm 9)
  let span := distanceBetweenPoints (lmGet lm 5) (lmGet lm 17)
  max (base + span) 0.001

/-- `computeFingerCurl` from the source, on the four joint indices of one
finger.  The `Number.isFinite` guard is vacuous over `ℝ`, so only the
clamping to `[0, 1]` remains. -/
noncomputable def computeFingerCurl (lm : Landmarks) (mcpIdx pipIdx dipIdx tipIdx : ℕ) : ℝ :=
  let v1 := normalizeVector (vectorSub (lmGet lm pipIdx) (lmGet lm mcpIdx))
  let v2 := normalizeVector (vectorSub (lmGet lm dipIdx) (lmGet lm pipIdx))
  let v3 := normalizeVector (vectorSub (lmGet lm tipIdx) (lmGet lm dipIdx))
  let angle1 := Real.arccos (clampNumber (vectorDot v1 v2) (-1) 1)
  let angle2 := Real.arccos (clampNumber (vectorDot v2 v3) (-1) 1)
  min (max ((angle1 + angle2) / Real.pi) 0) 1

/-- Handedness sign used by all three feature vectors:
`handLabel === "Left" ? -1 : handLabel === "Right" ? 1 : 0`. -/
noncomputable def handednessSign (handLabel : Option String) : ℝ :=
  if handLabel = some ("Left") then -1 else if handLabel = some ("Right") then 1 else 0

/-- The four features pushed for one finger configuration in
`computeHandshapeFeatures`. -/
noncomputable def fingerBlock (lm : Landmarks) (handLabel : Option String)
    (mcpIdx pipIdx dipIdx tipIdx mcp : ℕ) : List ℝ :=
  let palmCenter := computePalmCenter lm
  let scale := computeHandScale lm
  let extended : ℝ := if isFingerExtended lm tipIdx handLabel then 1 else 0
  let curl := computeFingerCurl lm mcpIdx pipIdx dipIdx tipIdx
  let distPalm := distanceBetweenPoints (lmGet lm tipIdx) palmCenter / scale
  let distBase := distanceBetweenPoints (lmGet lm mcp) palmCenter / scale
  [clampNumber extended 0 1, clampNumber curl 0 1, clamp5 distPalm, clamp5 distBase]

/-- `computeHandshapeFeatures` from the source, with the `forEach` over the
five literal finger configurations unrolled. -/
noncomputable def computeHandshapeFeatures (lm : Landmarks) (handLabel : Option String) :
    List ℝ :=
  let scale := computeHandScale lm
  let palmWidth := distanceBetweenPoints (lmGet lm 5) (lmGet lm 17) / scale
  let palmLength := distanceBetweenPoints (lmGet lm 0) (lmGet lm 12) / scale
  let fingerSpread := distanceBetweenPoints (lmGet lm 8) (lmGet lm 20) / scale
  let thumbIndex := distanceBetweenPoints (lmGet lm 4) (lmGet lm 8) / scale
  fingerBlock lm handLabel 1 2 3 4 2 ++
  fingerBlock lm handLabel 5 6 7 8 5 ++
  fingerBlock lm handLabel 9 10 11 12 9 ++
  fingerBlock lm handLabel 13 14 15 16 13 ++
  fingerBlock lm handLabel 17 18 19 20 17 ++
  [clamp5 palmWidth, clamp5 palmLength, clamp5 fingerSpread, clamp5 thumbIndex,
   handednessSign handLabel]

/-- `computeOrientationFeatures` from the source: palm normal, yaw/pitch/roll
projections, middle-finger direction z, handedness sign. -/
noncomputable def computeOrientationFeatures (lm : Landmarks) (handLabel : Option String) :
    List ℝ :=
  let wrist := lmGet lm 0
  let indexMCP := lmGet lm 5
  let pinkyMCP := lmGet lm 17
  let middleTip := lmGet lm 12
  let palmNormal :=
    normalizeVector (vectorCross (vectorSub indexMCP wrist) (vectorSub pinkyMCP wrist))
  let middleDirection := normalizeVector (vectorSub middleTip wrist)
  let yaw := atan2 palmNormal.x palmNormal.z / Real.pi
  let pitch := Real.arcsin (clampNumber (-palmNormal.y) (-1) 1) / (Real.pi / 2)
  let roll := atan2 middleDirection.y middleDirection.x / Real.pi
  [clamp5 palmNormal.x, clamp5 palmNormal.y, clamp5 palmNormal.z,
   clamp5 yaw, clamp5 pitch, clamp5 roll, clamp5 middleDirection.z,
   handednessSign handLabel]

/-- One hand in the per-frame context (`allHands` entries). -/
structure Hand where
  landmarks : Landmarks
  label : Option String

/-- `computeLocationFeatures` from the source, including the partner-hand
offset when a second hand is present. -/
noncomputable def computeLocationFeatures (lm : Landmarks) (handLabel : Option String)
    (allHands : List Hand) (handIndex : ℕ) : List ℝ :=
  let palmCenter := computePalmCenter lm
  let wrist := lmGet lm 0
  let indexTip := lmGet lm 8
  let middleTip := lmGet lm 12
  let scale := computeHandScale lm
  let base :=
    [clamp5 palmCenter.x, clamp5 palmCenter.y, clamp5 palmCenter.z,
     clamp5 wrist.x, clamp5 wrist.y, clamp5 wrist.z,
     clamp5 ((indexTip.y - wrist.y) / scale),
     clamp5 ((indexTip.x - wrist.x) / scale),
     clamp5 ((middleTip.z - wrist.z) / scale),
     clamp5 scale,
     handednessSign handLabel]
  let partnerPart :=
    if allHands.length > 1 then
      let partnerIndex := if handIndex = 0 then 1 else 0
      match allHands.get? partnerIndex with
      | some partner =>
          let partnerCenter := computePalmCenter partner.landmarks
          [clamp5 (palmCenter.x - partnerCenter.x),
           clamp5 (palmCenter.y - partnerCenter.y),
           clamp5 (palmCenter.z - partnerCenter.z)]
      | none => [0, 0, 0]
    else [0, 0, 0]
  base ++ partnerPart

/-- A feature packet: the three numeric vectors produced by the extractor. -/
structure Packet where
  handshape : List ℝ
  orientation : List ℝ
  location : List ℝ

/-- `buildFeaturePacket` from the source: `null` when fewer than 21 landmarks. -/
noncomputable def buildFeaturePacket (lm : Landmarks) (handLabel : Option String)
    (allHands : List Hand) (handIndex : ℕ) : Option Packet :=
  if lm.length < 21 then none
  else some ⟨computeHandshapeFeatures lm handLabel,
             computeOrientationFeatures lm handLabel,
             computeLocationFeatures lm handLabel allHands handIndex⟩

/-! ### Bounds on the feature extractor (claim C7) -/

theorem clampNumber_eq_self (x lo hi : ℝ) (h1 : lo ≤ x) (h2 : x ≤ hi) :
    clampNumber x lo hi = x := by
  unfold clampNumber
  rw [if_neg (not_lt.mpr h1), if_neg (not_lt.mpr h2)]

theorem abs_clamp5_le_five (x : ℝ) : |clamp5 x| ≤ 5 := by
  have h := clampNumber_mem x (-5) 5 (by norm_num)
  rw [clamp5, abs_le]
  exact h

theorem abs_clamp01_le_one (x : ℝ) : |clampNumber x 0 1| ≤ 1 := by
  have h := clampNumber_mem x 0 1 (by norm_num)
  rw [abs_le]
  exact ⟨by linarith [h.1], h.2⟩

theorem abs_clamp5_le_one (x : ℝ) (h : |x| ≤ 1) : |clamp5 x| ≤ 1 := by
  rw [abs_le] at h
  rw [clamp5, clampNumber_eq_self x (-5) 5 (by linarith [h.1]) (by linarith [h.2]), abs_le]
  exact h

theorem abs_handednessSign_le_one (l : Option String) : |handednessSign l| ≤ 1 := by
  unfold handednessSign
  split
  · norm_num
  · split <;> norm_num

/-- Each component of a vector is bounded in absolute value by its length. -/
theorem abs_comp_le_vectorLength (v : Point) :
    |v.x| ≤ vectorLength v ∧ |v.y| ≤ vectorLength v ∧ |v.z| ≤ vectorLength v := by
  unfold vectorLength
  refine ⟨?_, ?_, ?_⟩ <;>
  · rw [← Real.sqrt_sq_eq_abs]
    apply Real.sqrt_le_sqrt
    nlinarith [sq_nonneg v.x, sq_nonneg v.y, sq_nonneg v.z]

theorem normalizeVector_abs_le_one (v : Point) :
    |(normalizeVector v).x| ≤ 1 ∧ |(normalizeVector v).y| ≤ 1 ∧
    |(normalizeVector v).z| ≤ 1 := by
  unfold normalizeVector
  split
  · norm_num
  · rename_i hne
    have hpos : 0 < vectorLength v :=
      lt_of_le_of_ne (Real.sqrt_nonneg _) (Ne.symm hne)
    have hb := abs_comp_le_vectorLength v
    refine ⟨?_, ?_, ?_⟩ <;>
    · simp only [abs_div, abs_of_pos hpos]
      rw [div_le_one hpos]
      first
        | exact hb.1
        | exact hb.2.1
        | exact hb.2.2

theorem abs_atan2_div_pi_le_one (y x : ℝ) : |atan2 y x / Real.pi| ≤ 1 := by
  rw [abs_div, abs_of_pos Real.pi_pos, div_le_one Real.pi_pos]
  exact Complex.abs_arg_le_pi _

theorem abs_arcsin_div_le_one (t : ℝ) : |Real.arcsin t / (Real.pi / 2)| ≤ 1 := by
  have hpos : (0:ℝ) < Real.pi / 2 := by positivity
  rw [abs_div, abs_of_pos hpos, div_le_one hpos, abs_le]
  exact ⟨Real.neg_pi_div_two_le_arcsin t, Real.arcsin_le_pi_div_two t⟩

theorem computeFingerCurl_mem (lm : Landmarks) (a b c d : ℕ) :
    0 ≤ computeFingerCurl lm a b c d ∧ computeFingerCurl lm a b c d ≤ 1 := by
  unfold computeFingerCurl
  exact ⟨le_min (le_max_right _ _) zero_le_one, min_le_right _ _⟩

theorem mem_fingerBlock_abs_le_five (lm : Landmarks) (hl : Option String)
    (a b c d e : ℕ) : ∀ x ∈ fingerBlock lm hl a b c d e, |x| ≤ 5 := by
  intro x hx
  simp only [fingerBlock, List.mem_cons, List.not_mem_nil, or_false] at hx
  rcases hx with h | h | h | h <;> subst h
  · exact le_trans (abs_clamp01_le_one _) (by norm_num)
  · exact le_trans (abs_clamp01_le_one _) (by norm_num)
  · exact abs_clamp5_le_five _
  · exact abs_clamp5_le_five _

theorem mem_handshape_abs_le_five (lm : Landmarks) (hl : Option String) :
    ∀ x ∈ computeHandshapeFeatures lm hl, |x| ≤ 5 := by
  intro x hx
  simp only [computeHandshapeFeatures, List.mem_append, List.mem_cons,
    List.not_mem_nil, or_false] at hx
  rcases hx with ((((h | h) | h) | h) | h) | h | h | h | h | h
  · exact mem_fingerBlock_abs_le_five lm hl _ _ _ _ _ x h
  · exact mem_fingerBlock_abs_le_five lm hl _ _ _ _ _ x h
  · exact mem_fingerBlock_abs_le_five lm hl _ _ _ _ _ x h
  · exact mem_fingerBlock_abs_le_five lm hl _ _ _ _ _ x h
  · exact mem_fingerBlock_abs_le_five lm hl _ _ _ _ _ x h
  · subst h; exact abs_clamp5_le_five _
  · subst h; exact abs_clamp5_le_five _
  · subst h; exact abs_clamp5_le_five _
  · subst h; exact abs_clamp5_le_five _
  · subst h; exact le_trans (abs_handednessSign_le_one hl) (by norm_num)

theorem mem_orientation_abs_le_one (lm : Landmarks) (hl : Option String) :
    ∀ x ∈ computeOrientationFeatures lm hl, |x| ≤ 1 := by
  intro x hx
  simp only [computeOrientationFeatures, List.mem_cons, List.not_mem_nil,
    or_false] at hx
  have hn := normalizeVector_abs_le_one
    (vectorCross (vectorSub (lmGet lm 5) (lmGet lm 0))
      (vectorSub (lmGet lm 17) (lmGet lm 0)))
  have hm := normalizeVector_abs_le_one (vectorSub (lmGet lm 12) (lmGet lm 0))
  rcases hx with h | h | h | h | h | h | h | h <;> subst h
  · exact abs_clamp5_le_one _ hn.1
  · exact abs_clamp5_le_one _ hn.2.1
  · exact abs_clamp5_le_one _ hn.2.2
  · exact abs_clamp5_le_one _ (abs_atan2_div_pi_le_one _ _)
  · exact abs_clamp5_le_one _ (abs_arcsin_div_le_one _)
  · exact abs_clamp5_le_one _ (abs_atan2_div_pi_le_one _ _)
  · exact abs_clamp5_le_one _ hm.2.2
  · exact abs_handednessSign_le_one hl

theorem mem_location_abs_le_five (lm : Landmarks) (hl : Option String)
    (allHands : List Hand) (handIndex : ℕ) :
    ∀ x ∈ computeLocationFeatures lm hl allHands handIndex, |x| ≤ 5 := by
  intro x hx
  simp only [computeLocationFeatures, List.mem_append, List.mem_cons,
    List.not_mem_nil, or_false] at hx
  rcases hx with h | h
  · rcases h with h | h | h | h | h | h | h | h | h | h | h <;> subst h <;>
      first
        | exact abs_clamp5_le_five _
        | exact le_trans (abs_handednessSign_le_one hl) (by norm_num)
  · split at h
    · split at h
      · simp only [List.mem_cons, List.not_mem_nil, or_false] at h
        rcases h with h | h | h <;> subst h <;> exact abs_clamp5_le_five _
      · simp only [List.mem_cons, List.not_mem_nil, or_false] at h
        rcases h with h | h | h <;> subst h <;> norm_num
    · simp only [List.mem_cons, List.not_mem_nil, or_false] at h
      rcases h with h | h | h <;> subst h <;> norm_num

/-- `getD` inherits a pointwise property satisfied by every element and by
the default. -/
theorem getD_prop {α : Type} (P : α → Prop) (l : List α) (d : α)
    (h : ∀ x ∈ l, P x) (hd : P d) (i : ℕ) : P (l.getD i d) := by
  induction l generalizing i with
  | nil => simpa [List.getD] using hd
  | cons a t ih =>
      cases i with
      | zero => exact h a (List.mem_cons_self a t)
      | succ n =>
          simp only [List.getD_cons_succ]
          exact ih (fun x hx => h x (List.mem_cons_of_mem a hx)) n

/-- **C7.** For every input hand observation (arbitrary landmark list, so in
particular degenerate geometry such as colinear palm points or zero-length
vectors), every component of the produced feature packet lies within ±5;
every orientation component, every handshape finger flag/curl component
(indices 4k and 4k+1), both handedness-sign components (handshape index 24,
location index 10) lie within ±1.  Finiteness (no NaN/Infinity) is implicit
in the real-number model: every component is a genuine real number produced
by total clamped operations. -/
theorem c7_feature_vectors_bounded (lm : Landmarks) (handLabel : Option String)
    (allHands : List Hand) (handIndex i : ℕ) (k : Fin 5) :
    |(computeHandshapeFeatures lm handLabel).getD i 0| ≤ 5 ∧
    |(computeOrientationFeatures lm handLabel).getD i 0| ≤ 1 ∧
    |(computeLocationFeatures lm handLabel allHands handIndex).getD i 0| ≤ 5 ∧
    |(computeHandshapeFeatures lm handLabel).getD (4 * (k : ℕ)) 0| ≤ 1 ∧
    |(computeHandshapeFeatures lm handLabel).getD (4 * (k : ℕ) + 1) 0| ≤ 1 ∧
    |(computeHandshapeFeatures lm handLabel).getD 24 0| ≤ 1 ∧
    |(computeLocationFeatures lm handLabel allHands handIndex).getD 10 0| ≤ 1 := by
  refine ⟨?_, ?_, ?_, ?_, ?_, ?_, ?_⟩
  · exact getD_prop (fun x => |x| ≤ 5) _ 0
      (mem_handshape_abs_le_five lm handLabel) (by norm_num) i
  · exact getD_prop (fun x => |x| ≤ 1) _ 0
      (mem_orientation_abs_le_one lm handLabel) (by norm_num) i
  · exact getD_prop (fun x => |x| ≤ 5) _ 0
      (mem_location_abs_le_five lm handLabel allHands handIndex) (by norm_num) i
  · fin_cases k <;>
      simp only [computeHandshapeFeatures, fingerBlock, Fin.isValue] <;>
      norm_num [List.getD_cons_zero, List.getD_cons_succ] <;>
      exact abs_clamp01_le_one _
  · fin_cases k <;>
      simp only [computeHandshapeFeatures, fingerBlock, Fin.isValue] <;>
      norm_num [List.getD_cons_zero, List.getD_cons_succ] <;>
      exact abs_clamp01_le_one _
  · simp only [computeHandshapeFeatures, fingerBlock]
    norm_num [List.getD_cons_zero, List.getD_cons_succ]
    exact abs_handednessSign_le_one handLabel
  · simp only [computeLocationFeatures]
    norm_num [List.getD_cons_zero, List.getD_cons_succ]
    exact abs_handednessSign_le_one handLabel

/-! ### The thumbs-up scenario (claim C9) -/

theorem isFingerExtended_eight (lm : Landmarks) (hl : Option String) :
    isFingerExtended lm 8 hl = decide ((lmGet lm 8).y < (lmGet lm 6).y - 0.02) := by
  simp [isFingerExtended]

theorem isFingerExtended_twelve (lm : Landmarks) (hl : Option String) :
    isFingerExtended lm 12 hl = decide ((lmGet lm 12).y < (lmGet lm 10).y - 0.02) := by
  simp [isFingerExtended]

theorem isFingerExtended_sixteen (lm : Landmarks) (hl : Option String) :
    isFingerExtended lm 16 hl = decide ((lmGet lm 16).y < (lmGet lm 14).y - 0.02) := by
  simp [isFingerExtended]

theorem isFingerExtended_twenty (lm : Landmarks) (hl : Option String) :
    isFingerExtended lm 20 hl = decide ((lmGet lm 20).y < (lmGet lm 18).y - 0.02) := by
  simp [isFingerExtended]

/-- **C9 (amended).** In the thumbs-up scenario (thumb tip y = 0.2, thumb MCP
y = 0.3, all four non-thumb fingertips below their PIP joints by more than
0.02) and provided additionally that the thumb registers as extended under
the handedness-aware rule and the mean fingertip height exceeds 0.23 (so the
thumb is above the fingertips by the required 0.03 margin), `detectThumbUp`
returns ≥ 0.9 and the other five single-hand detectors return 0. -/
theorem c9_thumbs_up_scenario (lm : Landmarks) (handLabel : Option String)
    (hTip : (lmGet lm 4).y = 0.2)
    (hMCP : (lmGet lm 2).y = 0.3)
    (hIdx : (lmGet lm 8).y > (lmGet lm 6).y + 0.02)
    (hMid : (lmGet lm 12).y > (lmGet lm 10).y + 0.02)
    (hRing : (lmGet lm 16).y > (lmGet lm 14).y + 0.02)
    (hPinky : (lmGet lm 20).y > (lmGet lm 18).y + 0.02)
    (hThumb : isFingerExtended lm 4 handLabel = true)
    (hAvg : ((lmGet lm 8).y + (lmGet lm 12).y + (lmGet lm 16).y + (lmGet lm 20).y) / 4
              > 0.23) :
    detectThumbUp lm handLabel ≥ 0.9 ∧
    detectThumbDown lm handLabel = 0 ∧
    detectStop lm handLabel = 0 ∧
    detectQuestion lm handLabel = 0 ∧
    detectWait lm handLabel = 0 ∧
    detectGo lm handLabel = 0 := by
  have h8 : isFingerExtended lm 8 handLabel = false := by
    rw [isFingerExtended_eight, decide_eq_false_iff_not]
    intro h; linarith
  have h12 : isFingerExtended lm 12 handLabel = false := by
    rw [isFingerExtended_twelve, decide_eq_false_iff_not]
    intro h; linarith
  have h16 : isFingerExtended lm 16 handLabel = false := by
    rw [isFingerExtended_sixteen, decide_eq_false_iff_not]
    intro h; linarith
  have h20 : isFingerExtended lm 20 handLabel = false := by
    rw [isFingerExtended_twenty, decide_eq_false_iff_not]
    intro h; linarith
  have hlt : (lmGet lm 4).y <
      ((lmGet lm 8).y + (lmGet lm 12).y + (lmGet lm 16).y + (lmGet lm 20).y) / 4 - 0.03 := by
    rw [hTip]; linarith
  have hgt : ¬((lmGet lm 4).y >
      ((lmGet lm 8).y + (lmGet lm 12).y + (lmGet lm 16).y + (lmGet lm 20).y) / 4 + 0.03) := by
    rw [hTip]; push_neg; linarith
  refine ⟨?_, ?_, ?_, ?_, ?_, ?_⟩
  · have h : detectThumbUp lm handLabel = 0.95 := by
      simp [detectThumbUp, hThumb, h8, h12, h16, h20, hlt]
    rw [h]; norm_num
  · simp [detectThumbDown, hThumb, h8, h12, h16, h20, hgt]
  · norm_num [detectStop, h8, h12, h16, h20]
  · norm_num [detectQuestion, h8]
  · norm_num [detectWait, h8]
  · norm_num [detectGo, h8]

/-- Landmarks meeting every constraint named by claim C9 (thumb tip
y = 0.2, thumb MCP y = 0.3, every non-thumb fingertip more than 0.02 below
its PIP joint) for which the thumb nevertheless does not register as
extended, so `detectThumbUp` returns 0. -/
def c9CexLandmarks : Landmarks :=
  [⟨0.5, 0.9, 0⟩, ⟨0.5, 0.5, 0⟩, ⟨0.5, 0.3, 0⟩, ⟨0.5, 0.21, 0⟩, ⟨0.5, 0.2, 0⟩,
   ⟨0.5, 0.5, 0⟩, ⟨0.5, 0.5, 0⟩, ⟨0.5, 0.55, 0⟩, ⟨0.5, 0.6, 0⟩,
   ⟨0.5, 0.5, 0⟩, ⟨0.5, 0.5, 0⟩, ⟨0.5, 0.55, 0⟩, ⟨0.5, 0.6, 0⟩,
   ⟨0.5, 0.5, 0⟩, ⟨0.5, 0.5, 0⟩, ⟨0.5, 0.55, 0⟩, ⟨0.5, 0.6, 0⟩,
   ⟨0.5, 0.5, 0⟩, ⟨0.5, 0.5, 0⟩, ⟨0.5, 0.55, 0⟩, ⟨0.5, 0.6, 0⟩]

/-- **C9 counterexample.** The landmark constraints stated by the claim do
not force a high `detectThumbUp` score: here every stated constraint holds
(21 landmarks, thumb tip y = 0.2, thumb MCP y = 0.3, all four fingertips
below their PIPs by more than 0.02), yet `detectThumbUp` returns 0, because
the thumb x/y displacement test fails for unknown handedness. -/
theorem c9_counterexample :
    c9CexLandmarks.length = 21 ∧
    (lmGet c9CexLandmarks 4).y = 0.2 ∧
    (lmGet c9CexLandmarks 2).y = 0.3 ∧
    (lmGet c9CexLandmarks 8).y > (lmGet c9CexLandmarks 6).y + 0.02 ∧
    (lmGet c9CexLandmarks 12).y > (lmGet c9CexLandmarks 10).y + 0.02 ∧
    (lmGet c9CexLandmarks 16).y > (lmGet c9CexLandmarks 14).y + 0.02 ∧
    (lmGet c9CexLandmarks 20).y > (lmGet c9CexLandmarks 18).y + 0.02 ∧
    ¬ (detectThumbUp c9CexLandmarks none ≥ 0.9) := by
  have hThumb : isFingerExtended c9CexLandmarks 4 none = false := by
    simp only [isFingerExtended, lmGet, c9CexLandmarks]
    norm_num [abs_le]
  refine ⟨rfl, ?_, ?_, ?_, ?_, ?_, ?_, ?_⟩
  · norm_num [lmGet, c9CexLandmarks]
  · norm_num [lmGet, c9CexLandmarks]
  · norm_num [lmGet, c9CexLandmarks]
  · norm_num [lmGet, c9CexLandmarks]
  · norm_num [lmGet, c9CexLandmarks]
  · norm_num [lmGet, c9CexLandmarks]
  · unfold detectThumbUp
    rw [hThumb]
    norm_num

/-- Landmarks for the witness of the amended claim C9: same scenario with a
thumb that does register as extended (IP displaced in x by 0.05). -/
def c9WitnessLandmarks : Landmarks :=
  [⟨0.5, 0.9, 0⟩, ⟨0.5, 0.5, 0⟩, ⟨0.5, 0.3, 0⟩, ⟨0.55, 0.25, 0⟩, ⟨0.5, 0.2, 0⟩,
   ⟨0.5, 0.5, 0⟩, ⟨0.5, 0.5, 0⟩, ⟨0.5, 0.55, 0⟩, ⟨0.5, 0.6, 0⟩,
   ⟨0.5, 0.5, 0⟩, ⟨0.5, 0.5, 0⟩, ⟨0.5, 0.55, 0⟩, ⟨0.5, 0.6, 0⟩,
   ⟨0.5, 0.5, 0⟩, ⟨0.5, 0.5, 0⟩, ⟨0.5, 0.55, 0⟩, ⟨0.5, 0.6, 0⟩,
   ⟨0.5, 0.5, 0⟩, ⟨0.5, 0.5, 0⟩, ⟨0.5, 0.55, 0⟩, ⟨0.5, 0.6, 0⟩]

/-- Witness for `c9_thumbs_up_scenario` at concrete landmarks. -/
theorem c9_thumbs_up_scenario_witness :
    detectThumbUp c9WitnessLandmarks none ≥ 0.9 ∧
    detectThumbDown c9WitnessLandmarks none = 0 ∧
    detectStop c9WitnessLandmarks none = 0 ∧
    detectQuestion c9WitnessLandmarks none = 0 ∧
    detectWait c9WitnessLandmarks none = 0 ∧
    detectGo c9WitnessLandmarks none = 0 := by
  apply c9_thumbs_up_scenario
  · norm_num [lmGet, c9WitnessLandmarks]
  · norm_num [lmGet, c9WitnessLandmarks]
  · norm_num [lmGet, c9WitnessLandmarks]
  · norm_num [lmGet, c9WitnessLandmarks]
  · norm_num [lmGet, c9WitnessLandmarks]
  · norm_num [lmGet, c9WitnessLandmarks]
  · simp only [isFingerExtended, lmGet, c9WitnessLandmarks]
    norm_num [lt_abs]
  · norm_num [lmGet, c9WitnessLandmarks]

/-! ### Fusion and decision engine (`analyzeHandGesture`, claims C1, C2, C5)

The selection logic of `analyzeHandGesture` is algebraic in the confidence
values: it only adds, halves, and compares them.  It is therefore embedded
over an arbitrary linear ordered field; the heuristic candidates are the
`(gestureName, gestureData.confidence, pattern(...))` triples produced by the
loop over `gesturePatterns`. -/

section Selection

variable {α : Type} [LinearOrderedField α]

/-- Initialization of `bestMatch`/`bestConfidence` in `analyzeHandGesture`:
the learned prediction seeds the best match when its confidence meets
`modelConfidenceThreshold`. -/
def selectInit (ml : Option (String × α)) (floor : α) : Option String × α :=
  match ml with
  | some (l, c) => if c ≥ floor then (some l, c) else (none, 0)
  | none => (none, 0)

/-- One iteration of the `for ... of Object.entries(this.gesturePatterns)`
loop: a candidate is `(name, threshold, confidence)`.  The first branch takes
the raw heuristic confidence when it beats the running best and meets its own
threshold; the `else if` branch blends with the learned confidence. -/
def selectStep (ml : Option (String × α)) (acc : Option String × α)
    (cand : String × α × α) : Option String × α :=
  if cand.2.2 > acc.2 ∧ cand.2.2 ≥ cand.2.1 then (some cand.1, cand.2.2)
  else
    match ml with
    | some (mlabel, mconf) =>
        if cand.1 = mlabel ∧ cand.2.2 ≥ cand.2.1 ∧ (cand.2.2 + mconf) / 2 > acc.2 then
          (some cand.1, (cand.2.2 + mconf) / 2)
        else acc
    | none => acc

/-- The post-loop fixups of `analyzeHandGesture`: fall back to the learned
prediction when nothing was selected, or replace a weak winner by a
confident learned prediction with a different label. -/
def selectPost (ml : Option (String × α)) (floor : α) (acc : Option String × α) :
    Option String × α :=
  match acc.1, ml with
  | none, some (mlabel, mconf) => (some mlabel, mconf)
  | some bm, some (mlabel, mconf) =>
      if mlabel ≠ bm ∧ mconf ≥ floor ∧ acc.2 < floor then (some mlabel, max mconf acc.2)
      else (some bm, acc.2)
  | _, none => acc

/-- The complete per-hand selection of `analyzeHandGesture` (lines 304–364):
learned-prediction seeding, the candidate loop, and the post-loop fixups. -/
def selectGesture (ml : Option (String × α)) (floor : α)
    (cands : List (String × α × α)) : Option String × α :=
  selectPost ml floor (cands.foldl (selectStep ml) (selectInit ml floor))

/-- The emission gate of `analyzeHandGesture` (lines 366–373): a selected
gesture is emitted (and `lastGestureTime` updated) only when the wall-clock
time since the last emitted event exceeds `gestureCooldown`.  The state is a
single timestamp shared by all gesture names and hands. -/
def emitStep (lastGestureTime cooldown : ℤ) (sel : Option String × α) (now : ℤ) :
    Option (String × α) × ℤ :=
  match sel.1 with
  | some g =>
      if now - lastGestureTime > cooldown then (some (g, sel.2), now)
      else (none, lastGestureTime)
  | none => (none, lastGestureTime)

/-- The per-gesture acceptance thresholds declared by `gesturePatterns`
(`confidence` field) in the source constructor. -/
def gestureThresholds : List (String × ℚ) :=
  [(("hello"), 0.8), (("yes"), 0.9), (("no"), 0.9), (("thank_you"), 0.7),
   (("stop"), 0.85), (("question"), 0.9), (("help"), 0.6), (("wait"), 0.7),
   (("go"), 0.8), (("please"), 0.5)]

theorem foldl_selectStep_none (cands : List (String × α × α))
    (h : ∀ c ∈ cands, c.2.2 < c.2.1) :
    cands.foldl (selectStep (none : Option (String × α))) (none, 0) = (none, 0) := by
  induction cands with
  | nil => rfl
  | cons a t ih =>
      rw [List.foldl_cons]
      have hstep : selectStep (none : Option (String × α)) (none, 0) a = (none, 0) := by
        unfold selectStep
        rw [if_neg]
        rintro ⟨_, h2⟩
        exact absurd h2 (not_le.mpr (h a (List.mem_cons_self a t)))
      rw [hstep]
      exact ih fun c hc => h c (List.mem_cons_of_mem a hc)

/-- **C1 (amended).** If no heuristic detector's confidence meets that
detector's own acceptance threshold and the learned-model prediction is
absent, no gesture is selected: nothing is emitted and `lastGestureTime`
stays unchanged.  (When a learned prediction exists, the source falls back
to it even below the 0.6 floor — see the counterexample.) -/
theorem c1_no_candidate_nothing_emitted (cands : List (String × α × α))
    (floor : α) (lastTime now cooldown : ℤ)
    (h : ∀ c ∈ cands, c.2.2 < c.2.1) :
    selectGesture (none : Option (String × α)) floor cands = (none, 0) ∧
    emitStep lastTime cooldown
        (selectGesture (none : Option (String × α)) floor cands) now
      = (none, lastTime) := by
  have hsel : selectGesture (none : Option (String × α)) floor cands = (none, 0) := by
    unfold selectGesture
    rw [show selectInit (none : Option (String × α)) floor = (none, 0) from rfl,
      foldl_selectStep_none cands h]
    rfl
  exact ⟨hsel, by rw [hsel]; rfl⟩

/-- Candidates for the C1 scenario: every detector reports confidence 0,
below each of the thresholds declared in `gesturePatterns`. -/
def c1CexCandidates : List (String × ℚ × ℚ) :=
  gestureThresholds.map fun p => (p.1, p.2, 0)

set_option maxRecDepth 16000 in
/-- **C1 counterexample.** With all heuristic confidences at 0 (below every
threshold) and a learned prediction of confidence 0.5 — below the 0.6
acceptance floor — a gesture is still selected (the learned label), it is
emitted once the cooldown allows, and the last-gesture timestamp changes
from 0 to 2000, contradicting the claim that nothing is selected. -/
theorem c1_counterexample :
    (c1CexCandidates.all fun c => decide (c.2.2 < c.2.1)) = true ∧
    selectGesture (some (("yes"), (1/2 : ℚ))) (3/5) c1CexCandidates
      = (some ("yes"), 1/2) ∧
    emitStep 0 1000 (selectGesture (some (("yes"), (1/2 : ℚ))) (3/5) c1CexCandidates)
        2000
      = (some (("yes"), (1/2 : ℚ)), 2000) := by
  refine ⟨?_, ?_, ?_⟩
  · simp only [List.all_eq_true, decide_eq_true_eq]
    norm_num [c1CexCandidates, gestureThresholds]
  · norm_num [selectGesture, selectInit, selectStep, selectPost, c1CexCandidates,
      gestureThresholds, List.foldl]
  · norm_num [selectGesture, selectInit, selectStep, selectPost, emitStep,
      c1CexCandidates, gestureThresholds, List.foldl]

/-- Witness for `c1_no_candidate_nothing_emitted` at concrete inputs. -/
theorem c1_no_candidate_nothing_emitted_witness :
    selectGesture (none : Option (String × ℚ)) (3/5) c1CexCandidates = (none, 0) ∧
    emitStep 5 1000 (selectGesture (none : Option (String × ℚ)) (3/5) c1CexCandidates)
        2000
      = (none, 5) :=
  c1_no_candidate_nothing_emitted c1CexCandidates (3/5) 5 2000 1000
    (by norm_num [c1CexCandidates, gestureThresholds])

/-- **C2.** Cooldown debouncing: for two selected gestures at wall-clock
times t1 < t2, (a) when t2 − t1 is within the cooldown at most one of the two
is emitted, and (b) when the first fires from a cold state and t2 − t1
exceeds the cooldown, both are emitted.  The gate compares only timestamps —
the gesture names `g1`, `g2` (and hence the hand that produced them) are
arbitrary and independent, i.e. the gate is system-wide. -/
theorem c2_cooldown_debounce (g1 g2 : String) (conf1 conf2 : α)
    (last0 t1 t2 cooldown : ℤ) :
    (t2 - t1 ≤ cooldown →
      ¬((emitStep last0 cooldown (some g1, conf1) t1).1.isSome = true ∧
        (emitStep (emitStep last0 cooldown (some g1, conf1) t1).2 cooldown
            (some g2, conf2) t2).1.isSome = true)) ∧
    (t1 - last0 > cooldown → t2 - t1 > cooldown →
      (emitStep last0 cooldown (some g1, conf1) t1).1.isSome = true ∧
      (emitStep (emitStep last0 cooldown (some g1, conf1) t1).2 cooldown
          (some g2, conf2) t2).1.isSome = true) := by
  constructor
  · intro hwin hboth
    by_cases hc : t1 - last0 > cooldown
    · have hsecond : ¬(t2 - t1 > cooldown) := by omega
      simp [emitStep, hc, hsecond] at hboth
    · simp [emitStep, hc] at hboth
  · intro h1 h2
    simp [emitStep, h1, h2]

/-- Witness for `c2_cooldown_debounce`: spaced beyond the cooldown, both
gestures are emitted. -/
theorem c2_cooldown_debounce_witness :
    (emitStep 0 1000 (some ("yes"), (7/10 : ℚ)) 1001).1.isSome = true ∧
    (emitStep (emitStep 0 1000 (some ("yes"), (7/10 : ℚ)) 1001).2 1000
        (some ("no"), (7/10 : ℚ)) 2002).1.isSome = true :=
  (c2_cooldown_debounce ("yes") ("no") (7/10 : ℚ) (7/10) 0 1001 2002 1000).2
    (by decide) (by decide)

/-- The candidate loop with the blended-average branch removed: used to show
that branch can never decide the outcome once the learned prediction has
seeded the running best (claim C5). -/
def selectStepNoBlend (acc : Option String × α) (cand : String × α × α) :
    Option String × α :=
  if cand.2.2 > acc.2 ∧ cand.2.2 ≥ cand.2.1 then (some cand.1, cand.2.2) else acc

theorem selectStepNoBlend_snd_mono (acc : Option String × α) (cand : String × α × α) :
    acc.2 ≤ (selectStepNoBlend acc cand).2 := by
  unfold selectStepNoBlend
  split
  · exact le_of_lt (by assumption : cand.2.2 > acc.2 ∧ cand.2.2 ≥ cand.2.1).1
  · exact le_refl _

theorem selectStep_some_eq (l : String) (m : α) (acc : Option String × α)
    (cand : String × α × α) :
    selectStep (some (l, m)) acc cand =
      if cand.2.2 > acc.2 ∧ cand.2.2 ≥ cand.2.1 then (some cand.1, cand.2.2)
      else if cand.1 = l ∧ cand.2.2 ≥ cand.2.1 ∧ (cand.2.2 + m) / 2 > acc.2 then
        (some cand.1, (cand.2.2 + m) / 2)
      else acc := by
  unfold selectStep
  split <;> rfl

theorem selectStep_eq_noBlend (l : String) (m : α) (acc : Option String × α)
    (hacc : m ≤ acc.2) (cand : String × α × α) :
    selectStep (some (l, m)) acc cand = selectStepNoBlend acc cand := by
  rw [selectStep_some_eq]
  unfold selectStepNoBlend
  by_cases h1 : cand.2.2 > acc.2 ∧ cand.2.2 ≥ cand.2.1
  · rw [if_pos h1, if_pos h1]
  · rw [if_neg h1, if_neg h1]
    have hdead : ¬(cand.1 = l ∧ cand.2.2 ≥ cand.2.1 ∧ (cand.2.2 + m) / 2 > acc.2) := by
      rintro ⟨_, h2, h3⟩
      have hle : cand.2.2 ≤ acc.2 := by
        by_contra hgt
        exact h1 ⟨lt_of_not_le hgt, h2⟩
      linarith
    rw [if_neg hdead]

theorem foldl_selectStep_eq_noBlend (l : String) (m : α)
    (cands : List (String × α × α)) (acc : Option String × α) (hacc : m ≤ acc.2) :
    cands.foldl (selectStep (some (l, m))) acc = cands.foldl selectStepNoBlend acc := by
  induction cands generalizing acc with
  | nil => rfl
  | cons a t ih =>
      rw [List.foldl_cons, List.foldl_cons, selectStep_eq_noBlend l m acc hacc a]
      exact ih _ (le_trans hacc (selectStepNoBlend_snd_mono acc a))

theorem foldl_noBlend_fst_isSome (cands : List (String × α × α))
    (acc : Option String × α) (h : acc.1.isSome = true) :
    ((cands.foldl selectStepNoBlend acc).1).isSome = true := by
  induction cands generalizing acc with
  | nil => exact h
  | cons a t ih =>
      rw [List.foldl_cons]
      apply ih
      unfold selectStepNoBlend
      split
      · rfl
      · exact h

theorem foldl_noBlend_snd_ge (cands : List (String × α × α))
    (acc : Option String × α) : acc.2 ≤ (cands.foldl selectStepNoBlend acc).2 := by
  induction cands generalizing acc with
  | nil => exact le_refl _
  | cons a t ih =>
      rw [List.foldl_cons]
      exact le_trans (selectStepNoBlend_snd_mono acc a) (ih _)

theorem foldl_noBlend_snd_eq_max (cands : List (String × α × α))
    (acc : Option String × α) :
    (cands.foldl selectStepNoBlend acc).2 =
      cands.foldl (fun b c => if c.2.1 ≤ c.2.2 then max b c.2.2 else b) acc.2 := by
  induction cands generalizing acc with
  | nil => rfl
  | cons a t ih =>
      rw [List.foldl_cons, List.foldl_cons, ih]
      congr 1
      unfold selectStepNoBlend
      by_cases hpass : a.2.1 ≤ a.2.2
      · rw [if_pos hpass]
        by_cases hgt : a.2.2 > acc.2
        · rw [if_pos ⟨hgt, hpass⟩]
          exact (max_eq_right (le_of_lt hgt)).symm
        · rw [if_neg (fun hc => hgt hc.1)]
          exact (max_eq_left (le_of_not_lt hgt)).symm
      · rw [if_neg hpass, if_neg (fun hc => hpass hc.2)]

/-- **C5 (amended).** When the learned prediction `(l, m)` meets the 0.6
acceptance floor, the blended-average branch of the candidate loop can never
decide the outcome: the whole selection equals the loop with the blend
branch removed, and the selected confidence is the running maximum of the
learned confidence and the heuristic confidences that meet their own
thresholds — the larger of the two confidences, never their average. -/
theorem c5_blend_never_wins_when_floor_met (l : String) (m floor : α)
    (cands : List (String × α × α)) (hm : floor ≤ m) :
    selectGesture (some (l, m)) floor cands = cands.foldl selectStepNoBlend (some l, m) ∧
    (cands.foldl selectStepNoBlend ((some l : Option String), m)).2 =
      cands.foldl (fun b c => if c.2.1 ≤ c.2.2 then max b c.2.2 else b) m := by
  have hinit : selectInit (some (l, m)) floor = (some l, m) := by
    simp only [selectInit]
    rw [if_pos hm]
  constructor
  · unfold selectGesture
    rw [hinit,
      foldl_selectStep_eq_noBlend l m cands ((some l : Option String), m) (le_refl m)]
    have hsome := foldl_noBlend_fst_isSome cands ((some l : Option String), m) rfl
    obtain ⟨bm, hbm⟩ := Option.isSome_iff_exists.mp hsome
    have hge : floor ≤ (cands.foldl selectStepNoBlend ((some l : Option String), m)).2 :=
      le_trans hm (foldl_noBlend_snd_ge cands ((some l : Option String), m))
    set acc := cands.foldl selectStepNoBlend ((some l : Option String), m) with hacc
    have haccEq : acc = (some bm, acc.2) := Prod.ext hbm rfl
    rw [haccEq]
    simp only [selectPost]
    rw [if_neg (fun hc => absurd hc.2.2 (not_lt.mpr hge))]
  · exact foldl_noBlend_snd_eq_max cands _

/-- Candidates for the C5 scenario: the same `(name, threshold)` table as
`gestureThresholds`, with the thumbs-up detector reporting 0.95 (above its
0.9 threshold) and all other detectors reporting 0. -/
def c5Candidates : List (String × ℚ × ℚ) :=
  [(("hello"), 0.8, 0), (("yes"), 0.9, 0.95), (("no"), 0.9, 0),
   (("thank_you"), 0.7, 0), (("stop"), 0.85, 0), (("question"), 0.9, 0),
   (("help"), 0.6, 0), (("wait"), 0.7, 0), (("go"), 0.8, 0), (("please"), 0.5, 0)]

set_option maxRecDepth 16000 in
/-- **C5 counterexample.** Learned prediction ("yes", 0.7) meets its 0.6
floor and the "yes" heuristic reports 0.95, meeting its 0.9 threshold; the
claim says the candidate score is the simple average 0.825, but the code
selects "yes" with score 0.95 (the raw heuristic confidence, which beats the
running best and is taken by the first branch, not the blend branch). -/
theorem c5_counterexample :
    selectGesture (some (("yes"), (7/10 : ℚ))) (3/5) c5Candidates
      = (some ("yes"), 19/20) ∧
    (19/20 : ℚ) ≠ (19/20 + 7/10) / 2 := by
  constructor
  · norm_num [selectGesture, selectInit, selectStep, selectPost, c5Candidates,
      List.foldl]
  · norm_num

/-- Witness for `c5_blend_never_wins_when_floor_met` at concrete inputs. -/
theorem c5_blend_never_wins_when_floor_met_witness :
    selectGesture (some (("yes"), (7/10 : ℚ))) (3/5) c5Candidates
      = c5Candidates.foldl selectStepNoBlend (some ("yes"), 7/10) ∧
    (c5Candidates.foldl selectStepNoBlend ((some ("yes") : Option String), (7/10 : ℚ))).2 =
      c5Candidates.foldl (fun b c => if c.2.1 ≤ c.2.2 then max b c.2.2 else b) (7/10) :=
  c5_blend_never_wins_when_floor_met ("yes") (7/10) (3/5) c5Candidates (by norm_num)

end Selection

/-! ### Calibration store, classifier bank and session manager
(claims C3, C4, C8, C10)

The calibration sample store holds raw JavaScript numbers, which may in
principle be non-finite; it is therefore modelled over `JsVal = Option ℝ`
(`none` = `NaN`/`±Infinity`).  The feature extractor itself only produces
genuine (finite) reals — see `packetToJs` — which is exactly the source
situation, where every stored component has passed `clampNumber`.
JavaScript objects used as label→samples maps are association lists in
insertion order; `Map` iteration order is likewise insertion order. -/

/-- `Array.from(new Set(l))`: deduplication keeping first occurrences in
order. -/
def jsSetDedup (l : List String) : List String :=
  l.foldl (fun acc x => if x ∈ acc then acc else acc ++ [x]) []

/-- A label→samples store (`calibrationSamples.handshape` etc.). -/
abbrev CalStore := List (String × List (List JsVal))

/-- `store[label]`, defaulting to no samples. -/
def storeGet (store : CalStore) (label : String) : List (List JsVal) :=
  match store with
  | [] => []
  | e :: t => if e.1 = label then e.2 else storeGet t label

/-- Whether `store` has an entry for `label` (`!store[label]` check). -/
def storeHas (store : CalStore) (label : String) : Bool :=
  match store with
  | [] => false
  | e :: t => if e.1 = label then true else storeHas t label

/-- `store[label] = v`: overwrite in place if the key exists, else append the
new key (JavaScript object insertion order). -/
def storeSet (store : CalStore) (label : String) (v : List (List JsVal)) : CalStore :=
  if storeHas store label then
    store.map fun e => if e.1 = label then (label, v) else e
  else store ++ [(label, v)]

/-- `maxCalibrationSamplesPerLabel` from the source constructor. -/
def maxCalibrationSamplesPerLabel : ℕ := 180

/-- `appendCalibrationSample` from the source: a falsy label or a feature
vector containing a non-finite value is silently dropped; otherwise the
vector is pushed and the per-label list trimmed to the cap by shifting the
oldest sample.  (The `!store`/`!Array.isArray` guards are vacuous in the
typed model.) -/
def appendCalibrationSample (store : CalStore) (label : String)
    (features : List JsVal) : CalStore :=
  if label = "" then store
  else if features.any fun v => !(jsIsFinite v) then store
  else
    let pushed := storeGet store label ++ [features]
    storeSet store label
      (if pushed.length > maxCalibrationSamplesPerLabel then pushed.drop 1 else pushed)

/-- The three per-type sample stores. -/
structure SampleStores where
  handshape : CalStore
  orientation : CalStore
  location : CalStore

/-- A trained softmax model (`trainSoftmaxClassifier` result). -/
structure SoftmaxModel where
  labels : List String
  weights : List (List ℝ)
  biases : List ℝ
  featureMean : List ℝ
  featureStd : List ℝ
  finalLoss : ℝ
  iterations : ℕ

/-- One reference point of the location model. -/
structure LocationSample where
  features : List ℝ
  label : String

/-- The k-NN location model (`trainLocationModel` result). -/
structure LocationModel where
  data : List LocationSample
  mean : List ℝ
  std : List ℝ
  k : ℕ

/-- `this.classifiers`. -/
structure Classifiers where
  handshape : Option SoftmaxModel
  orientation : Option SoftmaxModel
  location : Option LocationModel

/-- A training summary as returned by the `train*Model` methods. -/
structure TrainSummary where
  type : String
  samples : ℕ
  trained : Bool
  reason : Option String
  labels : List String
  loss : Option ℝ

/-- Events dispatched by the engine (`emit`); the `localStorage` write of
`persistModels` is recorded as the `persisted` event. -/
inductive CalEvent where
  | started (label : String)
  | progress (label : String) (collected target : ℕ)
  | stopped (label : Option String) (samples : ℕ) (trained : Bool)
  | trainedModels (handshape orientation location : TrainSummary)
  | persisted

/-- `this.calibrationOptions`. -/
structure CalOptions where
  captureInterval : ℤ
  targetSamples : ℕ
  autoTrain : Bool

/-- Constructor defaults for `calibrationOptions`. -/
def defaultCalibrationOptions : CalOptions := ⟨120, 60, true⟩

/-- The (possibly partial) options object passed to `startCalibration`. -/
structure OptionsPatch where
  captureInterval : Option ℤ
  targetSamples : Option ℕ
  target : Option ℕ
  autoTrain : Option Bool

/-- `this.calibrationCounters`. -/
structure CalCounters where
  collected : ℕ
  target : ℕ

/-- The calibration-relevant engine state (the corresponding constructor
fields of `GestureRecognizer`), plus the log of emitted events. -/
structure CalState where
  calibrationMode : Bool
  currentCalibrationLabel : Option String
  calibrationCounters : CalCounters
  calibrationOptions : CalOptions
  lastCalibrationCaptureTime : ℤ
  calibrationSamples : SampleStores
  classifiers : Classifiers
  events : List CalEvent

/-- The engine state as built by the constructor. -/
def initialCalState : CalState where
  calibrationMode := false
  currentCalibrationLabel := none
  calibrationCounters := ⟨0, 0⟩
  calibrationOptions := defaultCalibrationOptions
  lastCalibrationCaptureTime := 0
  calibrationSamples := ⟨[], [], []⟩
  classifiers := ⟨none, none, none⟩
  events := []

/-- `this.emit(event, data)`. -/
def emitEvent (st : CalState) (e : CalEvent) : CalState :=
  { st with events := st.events ++ [e] }

/-- `startCalibration(label, options)` from the source: no-op on a falsy
label; resolves the target via `options.targetSamples ?? options.target ??
calibrationOptions.targetSamples`; merges the options; resets the counters
and the capture throttle. -/
def startCalibration (st : CalState) (label : String) (options : OptionsPatch) :
    CalState :=
  if label = "" then st
  else
    let target := (options.targetSamples <|> options.target).getD
      st.calibrationOptions.targetSamples
    let newOptions : CalOptions :=
      { captureInterval :=
          options.captureInterval.getD st.calibrationOptions.captureInterval
        autoTrain := options.autoTrain.getD st.calibrationOptions.autoTrain
        targetSamples := target }
    let st1 := { st with
      calibrationMode := true
      currentCalibrationLabel := some label
      calibrationOptions := newOptions
      calibrationCounters := ⟨0, target⟩
      lastCalibrationCaptureTime := 0 }
    emitEvent st1 (CalEvent.started label)

/-- `flattenSamples` from the source. -/
def flattenSamples (store : CalStore) : List (String × List JsVal) :=
  store.flatMap fun e => e.2.map fun features => (e.1, features)

/-- Realize a stored value as a real number.  The sample store only ever
holds all-finite vectors (`appendCalibrationSample` drops the rest), so this
is exact on every reachable store. -/
def jsValToReal (v : JsVal) : ℝ := v.getD 0

/-- `dotProduct` from the source (sums over the common prefix). -/
def dotProduct (a b : List ℝ) : ℝ := (a.zip b).foldl (fun s p => s + p.1 * p.2) 0

/-- `euclideanDistance` from the source. -/
noncomputable def euclideanDistance (a b : List ℝ) : ℝ :=
  Real.sqrt ((a.zip b).foldl (fun s p => s + (p.1 - p.2) ^ 2) 0)

/-- `softmax` from the source: exponentials shifted by the maximum, summed,
the sum floored to 1 when zero (`|| 1`; never triggered over `ℝ` but kept
from the source). -/
noncomputable def softmaxList (values : List ℝ) : List ℝ :=
  let m := values.foldl max (values.headD 0)
  let exps := values.map fun v => Real.exp (v - m)
  let s := exps.foldl (· + ·) 0
  let s1 := if s = 0 then 1 else s
  exps.map (· / s1)

/-- Result of `normalizeFeatureMatrix`. -/
structure Normalized where
  normalized : List (List ℝ)
  mean : List ℝ
  std : List ℝ

/-- `normalizeFeatureMatrix` from the source: per-feature mean and standard
deviation over the full matrix, std floored to 1 when zero. -/
noncomputable def normalizeFeatureMatrix (matrix : List (List ℝ)) : Normalized :=
  if matrix.length = 0 then ⟨[], [], []⟩
  else
    let n : ℝ := matrix.length
    let featureCount := (matrix.headD []).length
    let mean := (List.range featureCount).map fun i =>
      (matrix.foldl (fun s v => s + v.getD i 0) 0) / n
    let std := (List.range featureCount).map fun i =>
      let mu := mean.getD i 0
      let sd := Real.sqrt ((matrix.foldl (fun s v => s + (v.getD i 0 - mu) ^ 2) 0) / n)
      if sd = 0 then 1 else sd
    let normalized := matrix.map fun v =>
      v.mapIdx fun i x => (x - mean.getD i 0) / std.getD i 1
    ⟨normalized, mean, std⟩

/-- `applyNormalization` from the source (`mean[idx] ?? 0`, `std[idx] ?? 1`,
`sigma || 1`). -/
noncomputable def applyNormalization (vector mean std : List ℝ) : List ℝ :=
  vector.mapIdx fun i x =>
    let mu := mean.getD i 0
    let sigma := std.getD i 1
    (x - mu) / (if sigma = 0 then 1 else sigma)

/-- Options passed to `trainSoftmaxClassifier` by its two callers (the `||`
defaults of the source are therefore never exercised). -/
structure TrainConfig where
  maxEpochs : ℕ
  learningRate : ℝ
  l2 : ℝ

/-- `trainSoftmaxClassifier` from the source: full-batch gradient descent
with L2 regularization, cross-entropy loss with a 1e-9 guard, early exit
below loss 1e-4 (the `break` is modelled by a `done` flag threaded through
the epoch fold). -/
noncomputable def trainSoftmaxClassifier (dataset : List (String × List ℝ))
    (cfg : TrainConfig) : SoftmaxModel :=
  let featureMatrix := dataset.map (·.2)
  if featureMatrix.length = 0 ∨ (featureMatrix.headD []).length = 0 then
    ⟨[], [], [], [], [], 0, 0⟩
  else
    let nm := normalizeFeatureMatrix featureMatrix
    let labels := jsSetDedup (dataset.map (·.1))
    let labelToIndex : String → ℕ := fun l => List.indexOf l labels
    let classCount := labels.length
    let featureCount := (nm.normalized.headD []).length
    let w0 : List (List ℝ) := List.replicate classCount (List.replicate featureCount 0)
    let b0 : List ℝ := List.replicate classCount 0
    let sampleCount : ℝ := nm.normalized.length
    let samples := nm.normalized.zip (dataset.map (·.1))
    let result := (List.range cfg.maxEpochs).foldl
      (fun (state : List (List ℝ) × List ℝ × ℝ × Bool) _ =>
        if state.2.2.2 then state
        else
          let weights := state.1
          let biases := state.2.1
          let perSample := samples.map fun sample =>
            let logits := weights.mapIdx fun rowIdx row =>
              dotProduct row sample.1 + biases.getD rowIdx 0
            (sample.1, labelToIndex sample.2, softmaxList logits)
          let epochLoss := perSample.foldl
            (fun s p => s + -Real.log (p.2.2.getD p.2.1 0 + 1e-9)) 0
          let gradW := (List.range classCount).map fun classIdx =>
            (List.range featureCount).map fun f =>
              perSample.foldl (fun s p =>
                s + (p.2.2.getD classIdx 0 - if classIdx = p.2.1 then 1 else 0)
                      * p.1.getD f 0) 0
          let gradB := (List.range classCount).map fun classIdx =>
            perSample.foldl (fun s p =>
              s + (p.2.2.getD classIdx 0 - if classIdx = p.2.1 then 1 else 0)) 0
          let scale := 1 / sampleCount
          let weights1 := weights.mapIdx fun classIdx row =>
            row.mapIdx fun f wcf =>
              wcf - cfg.learningRate *
                ((gradW.getD classIdx []).getD f 0 * scale + cfg.l2 * wcf)
          let biases1 := biases.mapIdx fun classIdx b =>
            b - cfg.learningRate * (gradB.getD classIdx 0 * scale)
          let finalLoss := epochLoss * scale
          (weights1, biases1, finalLoss, decide (finalLoss < 1e-4)))
      (w0, b0, 0, false)
    ⟨labels, result.1, result.2.1, nm.mean, nm.std, result.2.2.1, cfg.maxEpochs⟩

/-- A (label, confidence) prediction. -/
structure Pred where
  label : String
  confidence : ℝ

/-- `predictSoftmax` from the source (the unused per-label probability map is
not materialized). -/
noncomputable def predictSoftmax (model : SoftmaxModel) (features : List ℝ) : Pred :=
  let normalized := applyNormalization features model.featureMean model.featureStd
  let logits := model.weights.mapIdx fun idx row =>
    dotProduct row normalized + model.biases.getD idx 0
  let probabilities := softmaxList logits
  let bestIndex := (List.range probabilities.length).foldl
    (fun best i => if probabilities.getD i 0 > probabilities.getD best 0 then i else best) 0
  ⟨model.labels.getD bestIndex (""), probabilities.getD bestIndex 0⟩

/-- Accumulation into the k-NN tally map (insertion-ordered). -/
def tallyAdd (tally : List (String × ℝ)) (label : String) (weight : ℝ) :
    List (String × ℝ) :=
  if (List.lookup label tally).isSome then
    tally.map fun e => if e.1 = label then (e.1, e.2 + weight) else e
  else tally ++ [(label, weight)]

/-- `predictLocationModel` from the source: sort reference points by
distance, inverse-distance-weight the k nearest, pick the heaviest label. -/
noncomputable def predictLocationModel (model : LocationModel) (features : List ℝ) :
    Option Pred :=
  if model.data.length = 0 then none
  else
    let normalized := applyNormalization features model.mean model.std
    let distances := (model.data.map fun sample =>
        (sample.label, euclideanDistance sample.features normalized)).mergeSort
      (fun a b => decide (a.2 ≤ b.2))
    let k := min (if model.k = 0 then 3 else model.k) distances.length
    let selected := distances.take k
    let totalWeight := selected.foldl (fun s n => s + 1 / (n.2 + 1e-3)) 0
    let tally := selected.foldl
      (fun acc n => tallyAdd acc n.1 (1 / (n.2 + 1e-3))) ([] : List (String × ℝ))
    let best := tally.foldl
      (fun acc e =>
        match acc with
        | none => some e
        | some b => if e.2 > b.2 then some e else acc) none
    match best with
    | some b =>
        some ⟨b.1, if totalWeight > 0 then clampNumber (b.2 / totalWeight) 0 1 else 0.5⟩
    | none => none

/-- The handshape branch of `predictWithTrainedModels`
(`if (this.classifiers.handshape && packet.handshape)`). -/
noncomputable def handshapeContribution (cls : Classifiers) (packet : Packet) :
    Option Pred :=
  match cls.handshape with
  | some m => some (predictSoftmax m packet.handshape)
  | none => none

/-- The orientation branch of `predictWithTrainedModels`. -/
noncomputable def orientationContribution (cls : Classifiers) (packet : Packet) :
    Option Pred :=
  match cls.orientation with
  | some m => some (predictSoftmax m packet.orientation)
  | none => none

/-- The location branch of `predictWithTrainedModels`. -/
noncomputable def locationContribution (cls : Classifiers) (packet : Packet) :
    Option Pred :=
  match cls.location with
  | some m => predictLocationModel m packet.location
  | none => none

/-- Accumulation into the per-label score map of `predictWithTrainedModels`. -/
def scoreAdd (scores : List (String × ℝ × ℝ)) (label : String) (score weight : ℝ) :
    List (String × ℝ × ℝ) :=
  if (List.lookup label scores).isSome then
    scores.map fun e => if e.1 = label then (e.1, e.2.1 + score, e.2.2 + weight) else e
  else scores ++ [(label, score, weight)]

/-- `predictWithTrainedModels` from the source: collect the per-type
contributions, weight location 0.9 against 1.0 for the softmax models,
average per label, pick the best label (`-Infinity` seeding modelled by an
`Option` accumulator), clamp the confidence into [0, 1]. -/
noncomputable def predictWithTrainedModels (cls : Classifiers) (packet : Packet) :
    Option Pred :=
  let contributions : List (String × String × ℝ) :=
    (match handshapeContribution cls packet with
     | some p => [(("handshape"), p.label, p.confidence)]
     | none => []) ++
    (match orientationContribution cls packet with
     | some p => [(("orientation"), p.label, p.confidence)]
     | none => []) ++
    (match locationContribution cls packet with
     | some p => [(("location"), p.label, p.confidence)]
     | none => [])
  if contributions.length = 0 then none
  else
    let labelScores := contributions.foldl
      (fun acc c =>
        let weight : ℝ := if c.1 = ("location") then 0.9 else 1
        scoreAdd acc c.2.1 (c.2.2 * weight) weight) ([] : List (String × ℝ × ℝ))
    let best := labelScores.foldl
      (fun acc e =>
        let avg := e.2.1 / max e.2.2 1e-6
        match acc with
        | none => some (e.1, avg)
        | some b => if avg > b.2 then some (e.1, avg) else acc) none
    match best with
    | some b => some ⟨b.1, clampNumber b.2 0 1⟩
    | none => none

/-- `trainHandshapeModel` from the source: requires ≥ 8 samples and ≥ 2
distinct labels, otherwise clears the handshape classifier and reports
`not-enough-samples`. -/
noncomputable def trainHandshapeModel (store : CalStore) :
    TrainSummary × Option SoftmaxModel :=
  let dataset := flattenSamples store
  let labelCount := (jsSetDedup (dataset.map (·.1))).length
  if dataset.length < 8 ∨ labelCount < 2 then
    (⟨("handshape"), dataset.length, false, some ("not-enough-samples"), [], none⟩, none)
  else
    let model := trainSoftmaxClassifier
      (dataset.map fun d => (d.1, d.2.map jsValToReal)) ⟨180, 0.35, 1e-4⟩
    (⟨("handshape"), dataset.length, true, none, model.labels, some model.finalLoss⟩,
     some model)

/-- `trainOrientationModel` from the source: requires ≥ 6 samples and ≥ 2
distinct labels. -/
noncomputable def trainOrientationModel (store : CalStore) :
    TrainSummary × Option SoftmaxModel :=
  let dataset := flattenSamples store
  let labelCount := (jsSetDedup (dataset.map (·.1))).length
  if dataset.length < 6 ∨ labelCount < 2 then
    (⟨("orientation"), dataset.length, false, some ("not-enough-samples"), [], none⟩, none)
  else
    let model := trainSoftmaxClassifier
      (dataset.map fun d => (d.1, d.2.map jsValToReal)) ⟨150, 0.3, 1e-4⟩
    (⟨("orientation"), dataset.length, true, none, model.labels, some model.finalLoss⟩,
     some model)

/-- `trainLocationModel` from the source: requires ≥ 3 samples; stores every
normalized sample with k = min(5, sample count). -/
noncomputable def trainLocationModel (store : CalStore) :
    TrainSummary × Option LocationModel :=
  let dataset := flattenSamples store
  if dataset.length < 3 then
    (⟨("location"), dataset.length, false, some ("not-enough-samples"), [], none⟩, none)
  else
    let matrix := dataset.map fun d => d.2.map jsValToReal
    let nm := normalizeFeatureMatrix matrix
    let model : LocationModel :=
      ⟨(nm.normalized.zip dataset).map fun p => ⟨p.1, p.2.1⟩,
       nm.mean, nm.std, min 5 dataset.length⟩
    (⟨("location"), dataset.length, true, none, jsSetDedup (dataset.map (·.1)), none⟩,
     some model)

/-- `trainModels` from the source: train all three classifier types from the
accumulated stores, replace the classifier bank, persist. -/
noncomputable def trainModels (st : CalState) :
    CalState × (TrainSummary × TrainSummary × TrainSummary) :=
  let hs := trainHandshapeModel st.calibrationSamples.handshape
  let os := trainOrientationModel st.calibrationSamples.orientation
  let ls := trainLocationModel st.calibrationSamples.location
  let st2 := { st with classifiers := ⟨hs.2, os.2, ls.2⟩ }
  let st3 := emitEvent st2 CalEvent.persisted
  (st3, (hs.1, os.1, ls.1))

/-- `stopCalibration({train})` from the source: no-op unless calibrating;
leaves recording mode, emits `calibration-stopped`, optionally retrains and
emits `calibration-trained`, and persists. -/
noncomputable def stopCalibration (st : CalState) (train : Option Bool) : CalState :=
  if st.calibrationMode = false then st
  else
    let shouldTrain := train.getD st.calibrationOptions.autoTrain
    let st1 := { st with calibrationMode := false, currentCalibrationLabel := none }
    let st2 := emitEvent st1
      (CalEvent.stopped st.currentCalibrationLabel st.calibrationCounters.collected
        shouldTrain)
    if shouldTrain then
      let tm := trainModels st2
      let st3 := emitEvent tm.1 CalEvent.persisted
      emitEvent st3 (CalEvent.trainedModels tm.2.1 tm.2.2.1 tm.2.2.2)
    else
      emitEvent st2 CalEvent.persisted

/-- `cancelCalibration` from the source: stop without training. -/
noncomputable def cancelCalibration (st : CalState) : CalState :=
  if st.calibrationMode = false then st else stopCalibration st (some false)

/-- A feature packet as it enters the calibration store: raw JavaScript
numbers per type. -/
structure JsPacket where
  handshape : List JsVal
  orientation : List JsVal
  location : List JsVal

/-- A feature packet as passed to the store (all components are genuine
numbers produced by the extractor). -/
def packetToJs (p : Packet) : JsPacket := ⟨p.handshape.map some,
  p.orientation.map some, p.location.map some⟩

/-- The body of `captureCalibrationSample` after the throttle check and
packet construction, up to the auto-stop check (lines 800–828): append one
sample per classifier type, advance the collected counter and the throttle
timestamp, emit progress, persist every 10th capture. -/
noncomputable def captureAppendCore (st : CalState) (label : String)
    (packet : JsPacket) (now : ℤ) : CalState :=
  let target := st.calibrationCounters.target
  let collected := st.calibrationCounters.collected + 1
  let st1 := { st with
    calibrationSamples :=
      ⟨appendCalibrationSample st.calibrationSamples.handshape label packet.handshape,
       appendCalibrationSample st.calibrationSamples.orientation label packet.orientation,
       appendCalibrationSample st.calibrationSamples.location label packet.location⟩
    calibrationCounters := ⟨collected, target⟩
    lastCalibrationCaptureTime := now }
  let st2 := emitEvent st1 (CalEvent.progress label collected target)
  if collected % 10 = 0 then emitEvent st2 CalEvent.persisted else st2

/-- The body of `captureCalibrationSample` after the throttle check and
packet construction (lines 800–835): `captureAppendCore` followed by the
auto-stop once the target is reached. -/
noncomputable def captureAppend (st : CalState) (label : String) (packet : JsPacket)
    (now : ℤ) : CalState :=
  if st.calibrationCounters.target ≠ 0 ∧
      st.calibrationCounters.collected + 1 ≥ st.calibrationCounters.target then
    stopCalibration (captureAppendCore st label packet now) none
  else captureAppendCore st label packet now

/-- `captureCalibrationSample` from the source: requires an active session
and a truthy label, throttles by the capture interval, extracts a feature
packet (null packets are dropped), then appends. -/
noncomputable def captureCalibrationSample (st : CalState) (label : String)
    (lm : Landmarks) (handLabel : Option String) (allHands : List Hand)
    (handIndex : ℕ) (now : ℤ) : CalState :=
  if st.calibrationMode = false ∨ label = "" then st
  else if now - st.lastCalibrationCaptureTime < st.calibrationOptions.captureInterval
  then st
  else
    match buildFeaturePacket lm handLabel allHands handIndex with
    | none => st
    | some packet => captureAppend st label (packetToJs packet) now

/-! ### Store lemmas and state-preservation lemmas -/

theorem storeGet_map_overwrite (store : CalStore) (label : String)
    (v : List (List JsVal)) (h : storeHas store label = true) :
    storeGet (store.map fun e => if e.1 = label then (label, v) else e) label = v := by
  induction store with
  | nil => simp [storeHas] at h
  | cons e t ih =>
      by_cases he : e.1 = label
      · simp [storeGet, he]
      · have h' : storeHas t label = true := by simpa [storeHas, he] using h
        simp [storeGet, he, ih h']

theorem storeGet_append_missing (store : CalStore) (label : String)
    (v : List (List JsVal)) (h : storeHas store label = false) :
    storeGet (store ++ [(label, v)]) label = v := by
  induction store with
  | nil => simp [storeGet]
  | cons e t ih =>
      by_cases he : e.1 = label
      · simp [storeHas, he] at h
      · have h' : storeHas t label = false := by simpa [storeHas, he] using h
        simpa [storeGet, he] using ih h'

theorem storeGet_storeSet_self (store : CalStore) (label : String)
    (v : List (List JsVal)) : storeGet (storeSet store label v) label = v := by
  unfold storeSet
  by_cases h : storeHas store label = true
  · rw [if_pos h]
    exact storeGet_map_overwrite store label v h
  · rw [if_neg h]
    exact storeGet_append_missing store label v (Bool.not_eq_true _ ▸ eq_false_of_ne_true h)

theorem appendCalibrationSample_nonfinite (store : CalStore) (label : String)
    (features : List JsVal)
    (hfin : (features.any fun v => !(jsIsFinite v)) = true) :
    appendCalibrationSample store label features = store := by
  unfold appendCalibrationSample
  by_cases hl : label = ""
  · rw [if_pos hl]
  · rw [if_neg hl, if_pos (by simp [hfin])]

theorem appendCalibrationSample_storeGet (store : CalStore) (label : String)
    (features : List JsVal) (hlabel : ¬label = "")
    (hfin : (features.any fun v => !(jsIsFinite v)) = false) :
    storeGet (appendCalibrationSample store label features) label =
      if (storeGet store label ++ [features]).length > maxCalibrationSamplesPerLabel
      then (storeGet store label ++ [features]).drop 1
      else storeGet store label ++ [features] := by
  unfold appendCalibrationSample
  rw [if_neg hlabel, if_neg (by simp [hfin])]
  exact storeGet_storeSet_self _ _ _

theorem appendCalibrationSample_length (store : CalStore) (label : String)
    (features : List JsVal) (hlabel : ¬label = "")
    (hfin : (features.any fun v => !(jsIsFinite v)) = false)
    (hlen : (storeGet store label).length ≤ 180) :
    (storeGet (appendCalibrationSample store label features) label).length =
      min ((storeGet store label).length + 1) 180 := by
  rw [appendCalibrationSample_storeGet store label features hlabel hfin]
  by_cases h : (storeGet store label ++ [features]).length > maxCalibrationSamplesPerLabel
  · rw [if_pos h]
    have := h
    simp [maxCalibrationSamplesPerLabel] at this
    simp [List.length_drop]
    omega
  · rw [if_neg h]
    have := h
    simp [maxCalibrationSamplesPerLabel] at this
    simp
    omega

theorem trainModels_fields (st : CalState) :
    (trainModels st).1.calibrationSamples = st.calibrationSamples ∧
    (trainModels st).1.calibrationCounters = st.calibrationCounters ∧
    (trainModels st).1.calibrationMode = st.calibrationMode ∧
    (trainModels st).1.currentCalibrationLabel = st.currentCalibrationLabel ∧
    (trainModels st).1.classifiers =
      ⟨(trainHandshapeModel st.calibrationSamples.handshape).2,
       (trainOrientationModel st.calibrationSamples.orientation).2,
       (trainLocationModel st.calibrationSamples.location).2⟩ ∧
    (trainModels st).2 =
      ((trainHandshapeModel st.calibrationSamples.handshape).1,
       (trainOrientationModel st.calibrationSamples.orientation).1,
       (trainLocationModel st.calibrationSamples.location).1) :=
  ⟨rfl, rfl, rfl, rfl, rfl, rfl⟩

theorem stopCalibration_samples (st : CalState) (opt : Option Bool) :
    (stopCalibration st opt).calibrationSamples = st.calibrationSamples := by
  unfold stopCalibration
  split
  · rfl
  · by_cases hb : opt.getD st.calibrationOptions.autoTrain = true <;>
      simp [hb, emitEvent, trainModels]

theorem stopCalibration_counters (st : CalState) (opt : Option Bool) :
    (stopCalibration st opt).calibrationCounters = st.calibrationCounters := by
  unfold stopCalibration
  split
  · rfl
  · by_cases hb : opt.getD st.calibrationOptions.autoTrain = true <;>
      simp [hb, emitEvent, trainModels]

theorem stopCalibration_mode (st : CalState) (opt : Option Bool)
    (h : st.calibrationMode = true) :
    (stopCalibration st opt).calibrationMode = false := by
  unfold stopCalibration
  rw [if_neg (by simp [h])]
  by_cases hb : opt.getD st.calibrationOptions.autoTrain = true <;>
    simp [hb, emitEvent, trainModels]

theorem stopCalibration_events_train (st : CalState)
    (hmode : st.calibrationMode = true)
    (hauto : st.calibrationOptions.autoTrain = true) :
    (stopCalibration st none).events =
      st.events ++
        [CalEvent.stopped st.currentCalibrationLabel
          st.calibrationCounters.collected true,
         CalEvent.persisted, CalEvent.persisted,
         CalEvent.trainedModels
           (trainHandshapeModel st.calibrationSamples.handshape).1
           (trainOrientationModel st.calibrationSamples.orientation).1
           (trainLocationModel st.calibrationSamples.location).1] := by
  unfold stopCalibration
  rw [if_neg (by simp [hmode])]
  simp only [Option.getD, hauto, if_true]
  simp [trainModels, emitEvent]

theorem captureAppend_samples (st : CalState) (label : String) (packet : JsPacket)
    (now : ℤ) :
    (captureAppend st label packet now).calibrationSamples =
      ⟨appendCalibrationSample st.calibrationSamples.handshape label packet.handshape,
       appendCalibrationSample st.calibrationSamples.orientation label
         packet.orientation,
       appendCalibrationSample st.calibrationSamples.location label
         packet.location⟩ := by
  unfold captureAppend captureAppendCore
  by_cases h10 : (st.calibrationCounters.collected + 1) % 10 = 0 <;>
    by_cases hstop : st.calibrationCounters.target ≠ 0 ∧
      st.calibrationCounters.collected + 1 ≥ st.calibrationCounters.target <;>
    simp [h10, hstop, emitEvent, stopCalibration_samples]

theorem captureAppend_counters (st : CalState) (label : String) (packet : JsPacket)
    (now : ℤ) :
    (captureAppend st label packet now).calibrationCounters =
      ⟨st.calibrationCounters.collected + 1, st.calibrationCounters.target⟩ := by
  unfold captureAppend captureAppendCore
  by_cases h10 : (st.calibrationCounters.collected + 1) % 10 = 0 <;>
    by_cases hstop : st.calibrationCounters.target ≠ 0 ∧
      st.calibrationCounters.collected + 1 ≥ st.calibrationCounters.target <;>
    simp [h10, hstop, emitEvent, stopCalibration_counters]

/-! ### No-op stop/cancel outside a session (claim C10) -/

/-- **C10.** When no calibration session is active (`calibrationMode` is
false), `stopCalibration` — with any `train` option — and
`cancelCalibration` return the state unchanged: same stores, classifiers,
counters, mode flag and options, no training pass (classifiers untouched),
no persistence write and no emitted event (the event log is unchanged). -/
theorem c10_stop_cancel_noop_when_idle (st : CalState) (train : Option Bool)
    (h : st.calibrationMode = false) :
    stopCalibration st train = st ∧ cancelCalibration st = st := by
  unfold stopCalibration cancelCalibration
  rw [if_pos h, if_pos h]
  exact ⟨rfl, rfl⟩

/-- Witness for `c10_stop_cancel_noop_when_idle` at the initial state. -/
theorem c10_stop_cancel_noop_when_idle_witness :
    stopCalibration initialCalState none = initialCalState ∧
    cancelCalibration initialCalState = initialCalState :=
  c10_stop_cancel_noop_when_idle initialCalState none rfl

/-! ### Insufficient training data (claim C3) -/

theorem trainHandshapeModel_insufficient (store : CalStore)
    (h : (flattenSamples store).length < 8 ∨
      (jsSetDedup ((flattenSamples store).map (·.1))).length < 2) :
    trainHandshapeModel store =
      (⟨("handshape"), (flattenSamples store).length, false,
        some ("not-enough-samples"), [], none⟩, none) := by
  simp only [trainHandshapeModel]
  rw [if_pos h]

theorem trainOrientationModel_insufficient (store : CalStore)
    (h : (flattenSamples store).length < 6 ∨
      (jsSetDedup ((flattenSamples store).map (·.1))).length < 2) :
    trainOrientationModel store =
      (⟨("orientation"), (flattenSamples store).length, false,
        some ("not-enough-samples"), [], none⟩, none) := by
  simp only [trainOrientationModel]
  rw [if_pos h]

/-- **C3.** If the handshape dataset has fewer than 8 samples or fewer than
2 distinct labels, and the orientation dataset fewer than 6 samples or fewer
than 2 distinct labels, then a training pass stores no model for either
type: both classifiers become `none`, the per-type predictions
(`predictWithTrainedModels` contributions) return `none` for any packet, and
the summaries report `not-enough-samples` — an explicit outcome, not an
error (all the functions involved are total). -/
theorem c3_insufficient_data_trains_no_model (st : CalState) (packet : Packet)
    (hH : (flattenSamples st.calibrationSamples.handshape).length < 8 ∨
      (jsSetDedup ((flattenSamples st.calibrationSamples.handshape).map (·.1))).length
        < 2)
    (hO : (flattenSamples st.calibrationSamples.orientation).length < 6 ∨
      (jsSetDedup ((flattenSamples st.calibrationSamples.orientation).map (·.1))).length
        < 2) :
    (trainModels st).1.classifiers.handshape = none ∧
    (trainModels st).1.classifiers.orientation = none ∧
    handshapeContribution (trainModels st).1.classifiers packet = none ∧
    orientationContribution (trainModels st).1.classifiers packet = none ∧
    (trainHandshapeModel st.calibrationSamples.handshape).1.trained = false ∧
    (trainHandshapeModel st.calibrationSamples.handshape).1.reason
      = some ("not-enough-samples") ∧
    (trainOrientationModel st.calibrationSamples.orientation).1.trained = false := by
  have hm := trainHandshapeModel_insufficient st.calibrationSamples.handshape hH
  have om := trainOrientationModel_insufficient st.calibrationSamples.orientation hO
  have hcls := (trainModels_fields st).2.2.2.2.1
  rw [hcls, hm, om]
  exact ⟨rfl, rfl, rfl, rfl, rfl, rfl, rfl⟩

/-- Witness for `c3_insufficient_data_trains_no_model` on the initial
(empty) store. -/
theorem c3_insufficient_data_trains_no_model_witness :
    (trainModels initialCalState).1.classifiers.handshape = none ∧
    (trainModels initialCalState).1.classifiers.orientation = none ∧
    handshapeContribution (trainModels initialCalState).1.classifiers ⟨[], [], []⟩
      = none ∧
    orientationContribution (trainModels initialCalState).1.classifiers ⟨[], [], []⟩
      = none ∧
    (trainHandshapeModel initialCalState.calibrationSamples.handshape).1.trained
      = false ∧
    (trainHandshapeModel initialCalState.calibrationSamples.handshape).1.reason
      = some ("not-enough-samples") ∧
    (trainOrientationModel initialCalState.calibrationSamples.orientation).1.trained
      = false :=
  c3_insufficient_data_trains_no_model initialCalState ⟨[], [], []⟩
    (Or.inl (by decide)) (Or.inl (by decide))

/-! ### Non-finite feature packets during calibration (claim C4) -/

/-- An active calibration session for label "A" with no samples yet. -/
def c4State : CalState :=
  { initialCalState with
    calibrationMode := true
    currentCalibrationLabel := some ("A") }

/-- A hypothetical packet whose handshape vector contains a non-finite value
while the orientation and location vectors are finite. -/
def c4Packet : JsPacket := ⟨[none], [some 0], [some 0]⟩

/-- **C4 counterexample.** A captured packet with a non-finite value (in its
handshape vector) is *not* dropped wholesale: the orientation store still
records a sample, contradicting the claim that no sample is recorded for any
of the three classifier types.  (The finiteness check of
`appendCalibrationSample` runs per feature-type vector, not per packet.) -/
theorem c4_counterexample :
    (c4Packet.handshape.any fun v => !(jsIsFinite v)) = true ∧
    storeGet (captureAppend c4State ("A") c4Packet 1000).calibrationSamples.orientation
        ("A") = [[some 0]] ∧
    (captureAppend c4State ("A") c4Packet 1000).calibrationSamples.orientation ≠
      c4State.calibrationSamples.orientation := by
  have hor : (captureAppend c4State ("A") c4Packet 1000).calibrationSamples.orientation
      = [(("A"), [[some 0]])] := rfl
  refine ⟨rfl, ?_, ?_⟩
  · rw [hor]; rfl
  · rw [hor]
    intro hcontra
    simp [c4State, initialCalState] at hcontra

/-- **C4 (amended).** The finiteness guard applies per feature-type vector:
a vector containing a non-finite value is silently dropped for that type
only (its store is unchanged and no error is raised — the function is
total), while the other types with all-finite vectors still record a sample,
and the collected counter advances either way. -/
theorem c4_nonfinite_vector_dropped_per_type (st : CalState) (label : String)
    (packet : JsPacket) (now : ℤ) (hlabel : ¬label = "")
    (hH : (packet.handshape.any fun v => !(jsIsFinite v)) = true)
    (hO : (packet.orientation.any fun v => !(jsIsFinite v)) = false)
    (hL : (packet.location.any fun v => !(jsIsFinite v)) = false)
    (hOlen : (storeGet st.calibrationSamples.orientation label).length ≤ 180)
    (hLlen : (storeGet st.calibrationSamples.location label).length ≤ 180) :
    (captureAppend st label packet now).calibrationSamples.handshape
      = st.calibrationSamples.handshape ∧
    (storeGet (captureAppend st label packet now).calibrationSamples.orientation
        label).length
      = min ((storeGet st.calibrationSamples.orientation label).length + 1) 180 ∧
    (storeGet (captureAppend st label packet now).calibrationSamples.location
        label).length
      = min ((storeGet st.calibrationSamples.location label).length + 1) 180 ∧
    (captureAppend st label packet now).calibrationCounters.collected
      = st.calibrationCounters.collected + 1 := by
  rw [captureAppend_samples, captureAppend_counters]
  exact ⟨appendCalibrationSample_nonfinite _ _ _ hH,
    appendCalibrationSample_length _ _ _ hlabel hO hOlen,
    appendCalibrationSample_length _ _ _ hlabel hL hLlen,
    rfl⟩

/-- Witness for `c4_nonfinite_vector_dropped_per_type` at a concrete state
and packet. -/
theorem c4_nonfinite_vector_dropped_per_type_witness :
    (captureAppend c4State ("A") c4Packet 50).calibrationSamples.handshape
      = c4State.calibrationSamples.handshape ∧
    (storeGet (captureAppend c4State ("A") c4Packet 50).calibrationSamples.orientation
        ("A")).length
      = min ((storeGet c4State.calibrationSamples.orientation ("A")).length + 1) 180 ∧
    (storeGet (captureAppend c4State ("A") c4Packet 50).calibrationSamples.location
        ("A")).length
      = min ((storeGet c4State.calibrationSamples.location ("A")).length + 1) 180 ∧
    (captureAppend c4State ("A") c4Packet 50).calibrationCounters.collected
      = c4State.calibrationCounters.collected + 1 :=
  c4_nonfinite_vector_dropped_per_type c4State ("A") c4Packet 50 (by decide) rfl rfl
    rfl (by decide) (by decide)

/-! ### Pose history store (claim C6) -/

/-- `this.maxPoseHistory` from the source constructor. -/
def maxPoseHistory : ℕ := 12

/-- The per-hand history update of `processHandResults` (lines 272–281):
push a shallow copy of the observed points, then trim to `maxPoseHistory` by
shifting off the oldest frame. -/
def recordObservation (hist : List Landmarks) (frame : Landmarks) : List Landmarks :=
  let pushed := hist ++ [frame.map fun pt => ⟨pt.x, pt.y, pt.z⟩]
  if pushed.length > maxPoseHistory then pushed.drop 1 else pushed

/-- The net effect of one `processHandResults` call on `this.handHistories`
(lines 272–281 together with the clearing at line 301): every detected hand
index records its observation; a frame with zero hands empties all
histories. -/
def processFrameHistories (hists : ℕ → List Landmarks) (hands : List Landmarks)
    (i : ℕ) : List Landmarks :=
  if hands.length = 0 then []
  else
    match hands[i]? with
    | some lm => recordObservation (hists i) lm
    | none => hists i

theorem recordObservation_length_le (hist : List Landmarks) (frame : Landmarks)
    (h : hist.length ≤ maxPoseHistory) :
    (recordObservation hist frame).length ≤ maxPoseHistory := by
  simp only [recordObservation, maxPoseHistory] at h ⊢
  split
  · simp
    omega
  · rename_i hle
    simp at hle ⊢
    omega

theorem processFrameHistories_length_le (hists : ℕ → List Landmarks)
    (hands : List Landmarks) (h : ∀ i, (hists i).length ≤ maxPoseHistory) (i : ℕ) :
    (processFrameHistories hists hands i).length ≤ maxPoseHistory := by
  unfold processFrameHistories
  split
  · simp
  · cases hget : hands[i]? with
    | none => simp only [hget]; exact h i
    | some lm => simp only [hget]; exact recordObservation_length_le (hists i) lm (h i)

theorem foldl_histories_length_le (frames : List (List Landmarks))
    (hists : ℕ → List Landmarks) (h : ∀ i, (hists i).length ≤ maxPoseHistory)
    (i : ℕ) :
    ((frames.foldl processFrameHistories hists) i).length ≤ maxPoseHistory := by
  induction frames generalizing hists with
  | nil => exact h i
  | cons f t ih =>
      rw [List.foldl_cons]
      exact ih (processFrameHistories hists f)
        (fun j => processFrameHistories_length_le hists f h j)

/-- **C6.** (i) Feeding any sequence of frames from an empty store, the pose
history of every hand index never exceeds `maxPoseHistory = 12`
observations; (ii) recording into a full history evicts the oldest
observation (FIFO): the result is the tail of the old history plus the new
frame; (iii) a frame with zero hands empties all histories. -/
theorem c6_pose_history_bounded_fifo_cleared :
    (∀ (frames : List (List Landmarks)) (i : ℕ),
      ((frames.foldl processFrameHistories fun _ => []) i).length ≤ maxPoseHistory) ∧
    (∀ (hist : List Landmarks) (frame : Landmarks),
      hist.length = maxPoseHistory →
      recordObservation hist frame
        = hist.drop 1 ++ [frame.map fun pt => ⟨pt.x, pt.y, pt.z⟩]) ∧
    (∀ hists : ℕ → List Landmarks, processFrameHistories hists [] = fun _ => []) := by
  refine ⟨?_, ?_, ?_⟩
  · intro frames i
    exact foldl_histories_length_le frames _ (fun _ => by simp) i
  · intro hist frame hlen
    simp only [maxPoseHistory] at hlen
    simp only [recordObservation, maxPoseHistory]
    rw [if_pos (by simp [hlen])]
    rw [List.drop_append_of_le_length (by omega)]
  · intro hists
    funext i
    rfl

/-- Witness for `c6_pose_history_bounded_fifo_cleared` on concrete inputs:
13 one-hand frames from empty stay within the bound, a full history of 12
frames evicts its head, and an empty frame clears. -/
theorem c6_pose_history_bounded_fifo_cleared_witness :
    (((List.replicate 13 [([] : Landmarks)]).foldl processFrameHistories
        fun _ => []) 0).length ≤ maxPoseHistory ∧
    recordObservation (List.replicate 12 ([] : Landmarks)) []
      = (List.replicate 12 ([] : Landmarks)).drop 1 ++ [[]] ∧
    processFrameHistories (fun _ => [[⟨0, 0, 0⟩]]) [] = fun _ => [] :=
  ⟨c6_pose_history_bounded_fifo_cleared.1 (List.replicate 13 [[]]) 0,
   by
     have h := c6_pose_history_bounded_fifo_cleared.2.1
       (List.replicate 12 ([] : Landmarks)) [] (by simp [maxPoseHistory])
     simpa using h,
   c6_pose_history_bounded_fifo_cleared.2.2 _⟩

/-! ### Calibration round-trip (claim C8) -/

/-- Feeding a sequence of timestamped landmark frames to the calibration
path of `processHandResults`: each frame triggers
`captureCalibrationSample` with the current calibration label. -/
noncomputable def calibFeedFrames (st : CalState) (frames : List (ℤ × Landmarks)) :
    CalState :=
  frames.foldl
    (fun s f =>
      captureCalibrationSample s (s.currentCalibrationLabel.getD ("")) f.2 none [] 0 f.1)
    st

/-- Timestamps spaced at or above `interval`, starting from `last`. -/
def spacedFrom (interval : ℤ) (last : ℤ) : List ℤ → Bool
  | [] => true
  | t :: rest => decide (t - last ≥ interval) && spacedFrom interval t rest

theorem any_map_some_false (l : List ℝ) :
    ((l.map some).any fun v => !(jsIsFinite v)) = false := by
  induction l with
  | nil => rfl
  | cons a t ih => simpa [jsIsFinite] using ih

theorem buildFeaturePacket_some (lm : Landmarks) (label : Option String)
    (allHands : List Hand) (idx : ℕ) (h : 21 ≤ lm.length) :
    buildFeaturePacket lm label allHands idx =
      some ⟨computeHandshapeFeatures lm label, computeOrientationFeatures lm label,
        computeLocationFeatures lm label allHands idx⟩ := by
  unfold buildFeaturePacket
  rw [if_neg (by omega)]

theorem captureCalibrationSample_step (st : CalState) (label : String)
    (lm : Landmarks) (t : ℤ)
    (hmode : st.calibrationMode = true) (hlabel : ¬label = "")
    (hint : st.calibrationOptions.captureInterval ≤ t - st.lastCalibrationCaptureTime)
    (hlm : 21 ≤ lm.length) :
    captureCalibrationSample st label lm none [] 0 t =
      captureAppend st label
        (packetToJs ⟨computeHandshapeFeatures lm none,
          computeOrientationFeatures lm none,
          computeLocationFeatures lm none [] 0⟩) t := by
  unfold captureCalibrationSample
  rw [if_neg (by simp [hmode, hlabel]), if_neg (not_lt.mpr hint),
    buildFeaturePacket_some lm none [] 0 hlm]

theorem captureAppend_no_stop (st : CalState) (label : String) (packet : JsPacket)
    (now : ℤ)
    (hns : ¬(st.calibrationCounters.target ≠ 0 ∧
      st.calibrationCounters.collected + 1 ≥ st.calibrationCounters.target)) :
    (captureAppend st label packet now).calibrationMode = st.calibrationMode ∧
    (captureAppend st label packet now).currentCalibrationLabel
      = st.currentCalibrationLabel ∧
    (captureAppend st label packet now).calibrationOptions = st.calibrationOptions ∧
    (captureAppend st label packet now).lastCalibrationCaptureTime = now := by
  unfold captureAppend captureAppendCore
  by_cases h10 : (st.calibrationCounters.collected + 1) % 10 = 0 <;>
    simp [h10, hns, emitEvent]

theorem captureAppend_stop_facts (st : CalState) (label : String) (packet : JsPacket)
    (now : ℤ)
    (hmode : st.calibrationMode = true)
    (hauto : st.calibrationOptions.autoTrain = true)
    (hs : st.calibrationCounters.target ≠ 0 ∧
      st.calibrationCounters.collected + 1 ≥ st.calibrationCounters.target) :
    (captureAppend st label packet now).calibrationMode = false ∧
    CalEvent.stopped st.currentCalibrationLabel (st.calibrationCounters.collected + 1)
      true ∈ (captureAppend st label packet now).events ∧
    ∃ a b c, CalEvent.trainedModels a b c
      ∈ (captureAppend st label packet now).events := by
  have hex : ∀ (l1 : List CalEvent) (e1 e2 e3 : CalEvent) (a b c : TrainSummary),
      ∃ x y z, CalEvent.trainedModels x y z
        ∈ l1 ++ [e1, e2, e3, CalEvent.trainedModels a b c] :=
    fun l1 e1 e2 e3 a b c => ⟨a, b, c, by simp⟩
  have hcoreMode : (captureAppendCore st label packet now).calibrationMode
      = st.calibrationMode := by
    unfold captureAppendCore
    by_cases h10 : (st.calibrationCounters.collected + 1) % 10 = 0 <;>
      simp [h10, emitEvent]
  have hcoreLabel : (captureAppendCore st label packet now).currentCalibrationLabel
      = st.currentCalibrationLabel := by
    unfold captureAppendCore
    by_cases h10 : (st.calibrationCounters.collected + 1) % 10 = 0 <;>
      simp [h10, emitEvent]
  have hcoreCnt : (captureAppendCore st label packet now).calibrationCounters
      = ⟨st.calibrationCounters.collected + 1, st.calibrationCounters.target⟩ := by
    unfold captureAppendCore
    by_cases h10 : (st.calibrationCounters.collected + 1) % 10 = 0 <;>
      simp [h10, emitEvent]
  have hcoreOpt : (captureAppendCore st label packet now).calibrationOptions
      = st.calibrationOptions := by
    unfold captureAppendCore
    by_cases h10 : (st.calibrationCounters.collected + 1) % 10 = 0 <;>
      simp [h10, emitEvent]
  have hevents := stopCalibration_events_train (captureAppendCore st label packet now)
    (by rw [hcoreMode]; exact hmode) (by rw [hcoreOpt]; exact hauto)
  unfold captureAppend
  rw [if_pos hs]
  refine ⟨stopCalibration_mode _ none (by rw [hcoreMode]; exact hmode), ?_, ?_⟩
  · rw [hevents, hcoreLabel, hcoreCnt]
    simp
  · rw [hevents]
    exact hex _ _ _ _ _ _ _

/-- The invariant-passing characterization of a full calibration feed: from
a recording state with k collected samples and matching per-label store
sizes, feeding exactly the remaining T − k valid, properly spaced frames
collects every one of them, caps each store at 180, reaches the target,
auto-stops, and triggers training. -/
theorem calibFeed_invariant (label : String) (hlabel : ¬label = (""))
    (T : ℕ) (hT : 1 ≤ T) :
    ∀ (frames : List (ℤ × Landmarks)) (k : ℕ) (st : CalState),
    st.calibrationMode = true →
    st.currentCalibrationLabel = some label →
    st.calibrationCounters = ⟨k, T⟩ →
    st.calibrationOptions = ⟨120, T, true⟩ →
    (storeGet st.calibrationSamples.handshape label).length = min k 180 →
    (storeGet st.calibrationSamples.orientation label).length = min k 180 →
    (storeGet st.calibrationSamples.location label).length = min k 180 →
    k + frames.length = T →
    (∀ f ∈ frames, 21 ≤ f.2.length) →
    spacedFrom 120 st.lastCalibrationCaptureTime (frames.map (·.1)) = true →
    0 < frames.length →
    (calibFeedFrames st frames).calibrationMode = false ∧
    (storeGet (calibFeedFrames st frames).calibrationSamples.handshape label).length
      = min T 180 ∧
    (storeGet (calibFeedFrames st frames).calibrationSamples.orientation label).length
      = min T 180 ∧
    (storeGet (calibFeedFrames st frames).calibrationSamples.location label).length
      = min T 180 ∧
    (calibFeedFrames st frames).calibrationCounters.collected = T ∧
    CalEvent.stopped (some label) T true ∈ (calibFeedFrames st frames).events ∧
    ∃ a b c, CalEvent.trainedModels a b c ∈ (calibFeedFrames st frames).events := by
  intro frames
  induction frames with
  | nil =>
      intro k st _ _ _ _ _ _ _ _ _ _ hpos
      exact absurd hpos (by simp)
  | cons f rest ih =>
      intro k st hmode hlab hcnt hopt hH hO hL hk hval hsp _
      obtain ⟨t, lm⟩ := f
      have htarget : st.calibrationCounters.target = T := by rw [hcnt]
      have hcollected : st.calibrationCounters.collected = k := by rw [hcnt]
      have hsph : 120 ≤ t - st.lastCalibrationCaptureTime ∧
          spacedFrom 120 t (rest.map (·.1)) = true := by
        have h := hsp
        simp only [List.map_cons, spacedFrom, Bool.and_eq_true, decide_eq_true_eq] at h
        exact h
      have hint : st.calibrationOptions.captureInterval
          ≤ t - st.lastCalibrationCaptureTime := by
        rw [hopt]; exact hsph.1
      have hlm21 : 21 ≤ lm.length := hval (t, lm) (List.mem_cons_self _ _)
      set pkt := packetToJs ⟨computeHandshapeFeatures lm none,
        computeOrientationFeatures lm none,
        computeLocationFeatures lm none [] 0⟩ with hpkt
      have hfinH : (pkt.handshape.any fun v => !(jsIsFinite v)) = false := by
        rw [hpkt]; exact any_map_some_false _
      have hfinO : (pkt.orientation.any fun v => !(jsIsFinite v)) = false := by
        rw [hpkt]; exact any_map_some_false _
      have hfinL : (pkt.location.any fun v => !(jsIsFinite v)) = false := by
        rw [hpkt]; exact any_map_some_false _
      have hstep0 : calibFeedFrames st ((t, lm) :: rest)
          = calibFeedFrames (captureAppend st label pkt t) rest := by
        unfold calibFeedFrames
        rw [List.foldl_cons]
        simp only [hlab, Option.getD_some]
        rw [captureCalibrationSample_step st label lm t hmode hlabel hint hlm21]
      have hH' : (storeGet (captureAppend st label pkt t).calibrationSamples.handshape
          label).length = min (k + 1) 180 := by
        rw [captureAppend_samples]
        rw [show (⟨appendCalibrationSample st.calibrationSamples.handshape label
            pkt.handshape, appendCalibrationSample st.calibrationSamples.orientation
            label pkt.orientation, appendCalibrationSample
            st.calibrationSamples.location label pkt.location⟩ :
            SampleStores).handshape = appendCalibrationSample
            st.calibrationSamples.handshape label pkt.handshape from rfl]
        rw [appendCalibrationSample_length _ _ _ hlabel hfinH
          (by rw [hH]; omega), hH]
        omega
      have hO' : (storeGet (captureAppend st label pkt t).calibrationSamples.orientation
          label).length = min (k + 1) 180 := by
        rw [captureAppend_samples]
        rw [show (⟨appendCalibrationSample st.calibrationSamples.handshape label
            pkt.handshape, appendCalibrationSample st.calibrationSamples.orientation
            label pkt.orientation, appendCalibrationSample
            st.calibrationSamples.location label pkt.location⟩ :
            SampleStores).orientation = appendCalibrationSample
            st.calibrationSamples.orientation label pkt.orientation from rfl]
        rw [appendCalibrationSample_length _ _ _ hlabel hfinO
          (by rw [hO]; omega), hO]
        omega
      have hL' : (storeGet (captureAppend st label pkt t).calibrationSamples.location
          label).length = min (k + 1) 180 := by
        rw [captureAppend_samples]
        rw [show (⟨appendCalibrationSample st.calibrationSamples.handshape label
            pkt.handshape, appendCalibrationSample st.calibrationSamples.orientation
            label pkt.orientation, appendCalibrationSample
            st.calibrationSamples.location label pkt.location⟩ :
            SampleStores).location = appendCalibrationSample
            st.calibrationSamples.location label pkt.location from rfl]
        rw [appendCalibrationSample_length _ _ _ hlabel hfinL
          (by rw [hL]; omega), hL]
        omega
      have hcnt' : (captureAppend st label pkt t).calibrationCounters
          = ⟨k + 1, T⟩ := by
        rw [captureAppend_counters, hcollected, htarget]
      by_cases hlast : k + 1 = T
      · -- final frame: the capture reaches the target and auto-stops
        have hrest : rest = [] := by
          have hlen : rest.length = 0 := by
            simp only [List.length_cons] at hk
            omega
          exact List.length_eq_zero.mp hlen
        subst hrest
        rw [hstep0]
        have hfold : calibFeedFrames (captureAppend st label pkt t) []
            = captureAppend st label pkt t := rfl
        rw [hfold]
        have hsfacts := captureAppend_stop_facts st label pkt t hmode
          (by rw [hopt])
          ⟨by rw [htarget]; omega, by rw [hcollected, htarget]; omega⟩
        refine ⟨hsfacts.1, ?_, ?_, ?_, ?_, ?_, hsfacts.2.2⟩
        · rw [hH', hlast]
        · rw [hO', hlast]
        · rw [hL', hlast]
        · rw [hcnt']
          exact hlast
        · have h := hsfacts.2.1
          rw [hlab, hcollected, hlast] at h
          exact h
      · -- middle frame: no stop, re-establish the invariant
        have hlt : k + 1 < T := by
          simp only [List.length_cons] at hk
          omega
        have hrestpos : 0 < rest.length := by
          simp only [List.length_cons] at hk
          omega
        have hnostop : ¬(st.calibrationCounters.target ≠ 0 ∧
            st.calibrationCounters.collected + 1 ≥ st.calibrationCounters.target) := by
          rw [htarget, hcollected]
          rintro ⟨_, hge⟩
          omega
        have hno := captureAppend_no_stop st label pkt t hnostop
        rw [hstep0]
        exact ih (k + 1) (captureAppend st label pkt t)
          (by rw [hno.1]; exact hmode)
          (by rw [hno.2.1]; exact hlab)
          hcnt'
          (by rw [hno.2.2.1]; exact hopt)
          hH' hO' hL'
          (by simp only [List.length_cons] at hk; omega)
          (fun f hf => hval f (List.mem_cons_of_mem _ hf))
          (by rw [hno.2.2.2]; exact hsph.2)
          hrestpos

theorem startCalibration_initial (label : String) (hlabel : ¬label = ("")) (T : ℕ) :
    startCalibration initialCalState label ⟨none, some T, none, none⟩ =
      { calibrationMode := true
        currentCalibrationLabel := some label
        calibrationCounters := ⟨0, T⟩
        calibrationOptions := ⟨120, T, true⟩
        lastCalibrationCaptureTime := 0
        calibrationSamples := ⟨[], [], []⟩
        classifiers := ⟨none, none, none⟩
        events := [CalEvent.started label] } := by
  unfold startCalibration
  rw [if_neg hlabel]
  rfl

/-- **C8 (amended).** Starting a calibration session on a fresh engine with
a (truthy) label and target count T with 1 ≤ T ≤ 180, then feeding T valid
frames (≥ 21 landmarks each) spaced at or above the default capture
interval, results in exactly T stored samples for that label in each of the
three feature-type stores, an automatic transition back to idle
(`calibrationMode = false`), a `calibration-stopped` event with the trained
flag set, and an invocation of the training pass (`calibration-trained`
event).  For T above the per-label cap of 180 the stores hold only 180
samples — see the counterexample. -/
theorem c8_calibration_round_trip (label : String) (T : ℕ)
    (frames : List (ℤ × Landmarks))
    (hlabel : ¬label = ("")) (hT : 1 ≤ T) (hcap : T ≤ 180)
    (hlen : frames.length = T)
    (hval : ∀ f ∈ frames, 21 ≤ f.2.length)
    (hsp : spacedFrom 120 0 (frames.map (·.1)) = true) :
    (calibFeedFrames (startCalibration initialCalState label ⟨none, some T, none, none⟩)
        frames).calibrationMode = false ∧
    (storeGet (calibFeedFrames (startCalibration initialCalState label
        ⟨none, some T, none, none⟩) frames).calibrationSamples.handshape label).length
      = T ∧
    (storeGet (calibFeedFrames (startCalibration initialCalState label
        ⟨none, some T, none, none⟩) frames).calibrationSamples.orientation label).length
      = T ∧
    (storeGet (calibFeedFrames (startCalibration initialCalState label
        ⟨none, some T, none, none⟩) frames).calibrationSamples.location label).length
      = T ∧
    (calibFeedFrames (startCalibration initialCalState label
        ⟨none, some T, none, none⟩) frames).calibrationCounters.collected = T ∧
    CalEvent.stopped (some label) T true ∈ (calibFeedFrames (startCalibration
        initialCalState label ⟨none, some T, none, none⟩) frames).events ∧
    ∃ a b c, CalEvent.trainedModels a b c ∈ (calibFeedFrames (startCalibration
        initialCalState label ⟨none, some T, none, none⟩) frames).events := by
  have h := calibFeed_invariant label hlabel T hT frames 0
    (startCalibration initialCalState label ⟨none, some T, none, none⟩)
    (by rw [startCalibration_initial label hlabel T])
    (by rw [startCalibration_initial label hlabel T])
    (by rw [startCalibration_initial label hlabel T])
    (by rw [startCalibration_initial label hlabel T])
    (by rw [startCalibration_initial label hlabel T]; simp [storeGet])
    (by rw [startCalibration_initial label hlabel T]; simp [storeGet])
    (by rw [startCalibration_initial label hlabel T]; simp [storeGet])
    (by omega)
    hval
    (by rw [startCalibration_initial label hlabel T]; exact hsp)
    (by omega)
  have hmin : min T 180 = T := by omega
  rw [hmin] at h
  exact h

/-- Frames every 120 ms starting after time `last`. -/
def arithTimes (n : ℕ) (last : ℤ) : List ℤ :=
  match n with
  | 0 => []
  | n + 1 => (last + 120) :: arithTimes n (last + 120)

theorem arithTimes_length (n : ℕ) (last : ℤ) : (arithTimes n last).length = n := by
  induction n generalizing last with
  | zero => rfl
  | succ n ih => simp [arithTimes, ih]

theorem arithTimes_spaced (n : ℕ) (last : ℤ) :
    spacedFrom 120 last (arithTimes n last) = true := by
  induction n generalizing last with
  | zero => rfl
  | succ n ih => simp [arithTimes, spacedFrom, ih]

/-- 181 valid frames at 120 ms spacing. -/
noncomputable def c8CexFrames : List (ℤ × Landmarks) :=
  (arithTimes 181 0).map fun t => (t, List.replicate 21 originPoint)

/-- **C8 counterexample.** With target count T = 181, feeding 181 valid,
properly spaced frames leaves only 180 stored samples for the label in the
handshape store (the per-label cap evicts the oldest), not the 181 the claim
promises. -/
theorem map_fst_pairs (l : List ℤ) (c : Landmarks) :
    ((l.map fun t => (t, c)).map fun x => x.1) = l := by
  induction l with
  | nil => rfl
  | cons a t ih => simp [ih]

theorem c8_counterexample :
    (storeGet (calibFeedFrames (startCalibration initialCalState ("X")
        ⟨none, some 181, none, none⟩) c8CexFrames).calibrationSamples.handshape
      ("X")).length = 180 ∧ (180 : ℕ) ≠ 181 := by
  have hmap : c8CexFrames.map (·.1) = arithTimes 181 0 := by
    unfold c8CexFrames
    exact map_fst_pairs _ _
  have h := calibFeed_invariant ("X") (by decide) 181 (by decide) c8CexFrames 0
    (startCalibration initialCalState ("X") ⟨none, some 181, none, none⟩)
    (by rw [startCalibration_initial ("X") (by decide) 181])
    (by rw [startCalibration_initial ("X") (by decide) 181])
    (by rw [startCalibration_initial ("X") (by decide) 181])
    (by rw [startCalibration_initial ("X") (by decide) 181])
    (by rw [startCalibration_initial ("X") (by decide) 181]; simp [storeGet])
    (by rw [startCalibration_initial ("X") (by decide) 181]; simp [storeGet])
    (by rw [startCalibration_initial ("X") (by decide) 181]; simp [storeGet])
    (by simp [c8CexFrames, arithTimes_length])
    (by intro f hf
        simp only [c8CexFrames, List.mem_map] at hf
        obtain ⟨t, _, rfl⟩ := hf
        simp)
    (by rw [startCalibration_initial ("X") (by decide) 181, hmap]
        exact arithTimes_spaced 181 0)
    (by simp [c8CexFrames, arithTimes_length])
  refine ⟨?_, by decide⟩
  rw [h.2.1]
  decide

/-- Witness for `c8_calibration_round_trip`: one valid frame at t = 120 with
target 1. -/
theorem c8_calibration_round_trip_witness :
    (calibFeedFrames (startCalibration initialCalState ("X")
        ⟨none, some 1, none, none⟩) [(120, List.replicate 21 originPoint)]).calibrationMode
      = false ∧
    (storeGet (calibFeedFrames (startCalibration initialCalState ("X")
        ⟨none, some 1, none, none⟩)
        [(120, List.replicate 21 originPoint)]).calibrationSamples.handshape
      ("X")).length = 1 ∧
    (storeGet (calibFeedFrames (startCalibration initialCalState ("X")
        ⟨none, some 1, none, none⟩)
        [(120, List.replicate 21 originPoint)]).calibrationSamples.orientation
      ("X")).length = 1 ∧
    (storeGet (calibFeedFrames (startCalibration initialCalState ("X")
        ⟨none, some 1, none, none⟩)
        [(120, List.replicate 21 originPoint)]).calibrationSamples.location
      ("X")).length = 1 ∧
    (calibFeedFrames (startCalibration initialCalState ("X")
        ⟨none, some 1, none, none⟩)
        [(120, List.replicate 21 originPoint)]).calibrationCounters.collected = 1 ∧
    CalEvent.stopped (some ("X")) 1 true ∈ (calibFeedFrames (startCalibration
        initialCalState ("X") ⟨none, some 1, none, none⟩)
        [(120, List.replicate 21 originPoint)]).events ∧
    ∃ a b c, CalEvent.trainedModels a b c ∈ (calibFeedFrames (startCalibration
        initialCalState ("X") ⟨none, some 1, none, none⟩)
        [(120, List.replicate 21 originPoint)]).events :=
  c8_calibration_round_trip ("X") 1 [(120, List.replicate 21 originPoint)]
    (by decide) (by decide) (by decide) (by simp)
    (by intro f hf; simp at hf; subst hf; simp)
    (by simp [spacedFrom])

end InSync
